import Mathlib

/-!
# Verification of the `chatgpt-interactor` Directus operation handler

Shallow embedding of `src/api.ts` (the operation dispatcher of the
`directus-extension-chatgpt-interactor` repository).  The handler is an
async function from an option bag to an `OperationResult`; the OpenAI SDK
client is modelled as a record of pure functions (a stub client), and the
handler is embedded as a state-passing function that additionally records
every client invocation in a call log.  JavaScript `throw` inside the
handler's `try` block is modelled with `Except`; the single `throw`
statement that sits *before* the `try` block (the missing-api-key check)
surfaces as an `Except.error` of the whole handler.
-/

/-- A JSON value, as produced by `JSON.parse`.  Numbers keep their source
lexeme: no numeric semantics of JavaScript floats is asserted anywhere in
this development. -/
inductive Json where
  | null : Json
  | bool (b : Bool) : Json
  | num (lexeme : String) : Json
  | str (s : String) : Json
  | arr (items : List Json) : Json
  | obj (fields : List (String × Json)) : Json

/-- `l` starts with the pattern `pat` (JavaScript `String.startsWith`,
over character lists). -/
def listStartsWith : List Char → List Char → Bool
  | _, [] => true
  | [], _ :: _ => false
  | c :: l, p :: ps => if c = p then listStartsWith l ps else false

/-- JavaScript `s.startsWith(pat)`. -/
def strStartsWith (s pat : String) : Bool :=
  listStartsWith s.toList pat.toList

/-- `l` contains `pat` as a contiguous substring (JavaScript
`String.includes`). -/
def listContainsSub (pat : List Char) : List Char → Bool
  | [] => listStartsWith [] pat
  | c :: l => listStartsWith (c :: l) pat || listContainsSub pat l

/-- JavaScript `s.includes(pat)`. -/
def strIncludes (s pat : String) : Bool :=
  listContainsSub pat.toList s.toList

/-- One pass of JavaScript `String.replace` with a global pattern:
scan left to right, on a match emit the replacement and continue after the
matched text (the replacement itself is not rescanned).  `fuel` bounds the
recursion; callers pass the length of the list. -/
def replaceAllAux (pat rep : List Char) : Nat → List Char → List Char
  | 0, l => l
  | _ + 1, [] => []
  | fuel + 1, c :: rest =>
    if listStartsWith (c :: rest) pat ∧ pat ≠ [] then
      rep ++ replaceAllAux pat rep fuel (List.drop (pat.length - 1) rest)
    else
      c :: replaceAllAux pat rep fuel rest

/-- JavaScript `s.replace(/pat/g, rep)` for a literal pattern. -/
def strReplaceAll (s pat rep : String) : String :=
  String.mk (replaceAllAux pat.toList rep.toList s.toList.length s.toList)

/-- The un-escaping applied to a `file_base64_array` field that arrives as
a string (lines 655-659 and 791-794 of `api.ts`): replace `\"` by `"`,
then `\/` by `/`, then `\\` by `\`. -/
def unescapeFileField (s : String) : String :=
  strReplaceAll (strReplaceAll (strReplaceAll s "\\\"" "\"") "\\/" "/") "\\\\" "\\"

/-! ## JSON parsing (`JSON.parse`) -/

/-- JSON whitespace. -/
def isJsonWs (c : Char) : Bool :=
  c = ' ' ∨ c = '\t' ∨ c = '\n' ∨ c = '\r'

/-- Drop leading JSON whitespace. -/
def skipWs : List Char → List Char
  | [] => []
  | c :: l => if isJsonWs c then skipWs l else c :: l

/-- Value of a hexadecimal digit. -/
def hexVal (c : Char) : Option Nat :=
  if '0' ≤ c ∧ c ≤ '9' then some (c.toNat - '0'.toNat)
  else if 'a' ≤ c ∧ c ≤ 'f' then some (c.toNat - 'a'.toNat + 10)
  else if 'A' ≤ c ∧ c ≤ 'F' then some (c.toNat - 'A'.toNat + 10)
  else none

/-- Parse exactly four hex digits (a `\uXXXX` escape). -/
def parseHex4 : List Char → Option (Nat × List Char)
  | a :: b :: c :: d :: rest =>
    match hexVal a, hexVal b, hexVal c, hexVal d with
    | some x, some y, some z, some w => some ((((x * 16 + y) * 16 + z) * 16 + w), rest)
    | _, _, _, _ => none
  | _ => none

/-- Parse the body of a JSON string, after the opening quote, returning
the decoded characters and the remainder after the closing quote.
Lone surrogates from `\u` escapes are not representable as a Lean `Char`;
`Char.ofNat` maps them to `'\0'` (no claim in this development exercises
that corner). -/
def parseStringBody : Nat → List Char → Option (List Char × List Char)
  | 0, _ => none
  | _ + 1, [] => none
  | fuel + 1, c :: rest =>
    if c = '"' then some ([], rest)
    else if c = '\\' then
      match rest with
      | [] => none
      | e :: rest2 =>
        let esc : Option (Char × List Char) :=
          if e = '"' then some ('"', rest2)
          else if e = '\\' then some ('\\', rest2)
          else if e = '/' then some ('/', rest2)
          else if e = 'b' then some (Char.ofNat 8, rest2)
          else if e = 'f' then some (Char.ofNat 12, rest2)
          else if e = 'n' then some ('\n', rest2)
          else if e = 'r' then some ('\r', rest2)
          else if e = 't' then some ('\t', rest2)
          else if e = 'u' then
            match parseHex4 rest2 with
            | some (n, r) => some (Char.ofNat n, r)
            | none => none
          else none
        match esc with
        | some (ch, r) =>
          match parseStringBody fuel r with
          | some (s, r2) => some (ch :: s, r2)
          | none => none
        | none => none
    else if c.toNat < 32 then none
    else
      match parseStringBody fuel rest with
      | some (s, r2) => some (c :: s, r2)
      | none => none

/-- Is `c` an ASCII decimal digit? -/
def isDigitCh (c : Char) : Bool := '0' ≤ c ∧ c ≤ '9'

/-- Parse a JSON number lexeme: `-? (0 | [1-9][0-9]*) (. [0-9]+)?
([eE] [+-]? [0-9]+)?`.  Returns the lexeme and the remainder. -/
def parseNumberLex (l : List Char) : Option (List Char × List Char) :=
  let (sign, l1) :=
    match l with
    | '-' :: r => (['-'], r)
    | _ => ([], l)
  match l1 with
  | [] => none
  | c :: _ =>
    if ¬ isDigitCh c then none
    else
      let intPart :=
        if c = '0' then ['0'] else l1.takeWhile isDigitCh
      let l2 := l1.drop intPart.length
      let (fracPart, l3) :=
        match l2 with
        | '.' :: r =>
          let ds := r.takeWhile isDigitCh
          if ds = [] then ([], l2) else ('.' :: ds, r.drop ds.length)
        | _ => ([], l2)
      if l2 ≠ [] ∧ l2.headD ' ' = '.' ∧ fracPart = [] then none
      else
        let (expPart, l4) :=
          match l3 with
          | e :: r =>
            if e = 'e' ∨ e = 'E' then
              let (es, r2) :=
                match r with
                | s :: r3 => if s = '+' ∨ s = '-' then ([e, s], r3) else ([e], r)
                | [] => ([e], r)
              let ds := r2.takeWhile isDigitCh
              if ds = [] then (([] : List Char), l3) else (es ++ ds, r2.drop ds.length)
            else ([], l3)
          | [] => ([], l3)
        if l3 ≠ [] ∧ (l3.headD ' ' = 'e' ∨ l3.headD ' ' = 'E') ∧ expPart = [] then
          some (sign ++ intPart ++ fracPart, l3)
        else
          some (sign ++ intPart ++ fracPart ++ expPart, l4)

/-- Parse a literal keyword (`null`, `true`, `false`). -/
def parseLit (lit : List Char) (j : Json) (l : List Char) : Option (Json × List Char) :=
  if listStartsWith l lit then some (j, l.drop lit.length) else none

mutual

/-- Parse one JSON value (leading whitespace allowed). -/
def parseValue : Nat → List Char → Option (Json × List Char)
  | 0, _ => none
  | fuel + 1, l =>
    match skipWs l with
    | [] => none
    | c :: rest =>
      if c = 'n' then parseLit ['n', 'u', 'l', 'l'] Json.null (c :: rest)
      else if c = 't' then parseLit ['t', 'r', 'u', 'e'] (Json.bool true) (c :: rest)
      else if c = 'f' then parseLit ['f', 'a', 'l', 's', 'e'] (Json.bool false) (c :: rest)
      else if c = '"' then
        match parseStringBody (rest.length + 1) rest with
        | some (s, r) => some (Json.str (String.mk s), r)
        | none => none
      else if c = '[' then
        match skipWs rest with
        | ']' :: r2 => some (Json.arr [], r2)
        | r2 =>
          match parseArrayItems fuel r2 with
          | some (items, r3) => some (Json.arr items, r3)
          | none => none
      else if c = '{' then
        match skipWs rest with
        | '}' :: r2 => some (Json.obj [], r2)
        | r2 =>
          match parseObjectItems fuel r2 with
          | some (fields, r3) => some (Json.obj fields, r3)
          | none => none
      else
        match parseNumberLex (c :: rest) with
        | some (lex, r) => some (Json.num (String.mk lex), r)
        | none => none

/-- Parse the items of a non-empty JSON array, up to and including the
closing bracket. -/
def parseArrayItems : Nat → List Char → Option (List Json × List Char)
  | 0, _ => none
  | fuel + 1, l =>
    match parseValue fuel l with
    | none => none
    | some (j, r) =>
      match skipWs r with
      | ',' :: r2 =>
        match parseArrayItems fuel r2 with
        | some (items, r3) => some (j :: items, r3)
        | none => none
      | ']' :: r2 => some ([j], r2)
      | _ => none

/-- Parse the members of a non-empty JSON object, up to and including the
closing brace. -/
def parseObjectItems : Nat → List Char → Option (List (String × Json) × List Char)
  | 0, _ => none
  | fuel + 1, l =>
    match skipWs l with
    | '"' :: r =>
      match parseStringBody (r.length + 1) r with
      | none => none
      | some (k, r2) =>
        match skipWs r2 with
        | ':' :: r3 =>
          match parseValue fuel r3 with
          | none => none
          | some (v, r4) =>
            match skipWs r4 with
            | ',' :: r5 =>
              match parseObjectItems fuel r5 with
              | some (fields, r6) => some ((String.mk k, v) :: fields, r6)
              | none => none
            | '}' :: r5 => some ([(String.mk k, v)], r5)
            | _ => none
        | _ => none
    | _ => none

end

/-- `JSON.parse`: the whole input must be one JSON value surrounded by
optional whitespace, otherwise the parse fails (in JavaScript: throws a
`SyntaxError`, which the call sites of this model catch). -/
def jsonParse (s : String) : Option Json :=
  match parseValue (2 * s.toList.length + 8) s.toList with
  | some (j, rest) => if skipWs rest = [] then some j else none
  | none => none

/-! ## Base64 helpers -/

/-- A character of the base64 alphabet (the character class
`[A-Za-z0-9+/]` of the validation regex in `api.ts`). -/
def isB64Char (c : Char) : Bool :=
  ('A' ≤ c ∧ c ≤ 'Z') ∨ ('a' ≤ c ∧ c ≤ 'z') ∨ ('0' ≤ c ∧ c ≤ '9') ∨ c = '+' ∨ c = '/'

/-- Accepts `={0,2}` exactly to the end of input. -/
def b64Tail : List Char → Bool
  | [] => true
  | ['='] => true
  | ['=', '='] => true
  | _ => false

/-- The regex `^[A-Za-z0-9+/]*={0,2}$` of `api.ts` lines 300 and 480. -/
def base64RegexTest : List Char → Bool
  | [] => true
  | c :: rest => if isB64Char c then base64RegexTest rest else b64Tail (c :: rest)

/-- The JavaScript regex character class `\s`: ASCII whitespace plus the
Unicode space separators, NBSP, BOM and the line/paragraph separators. -/
def isJsWs (c : Char) : Bool :=
  c = ' ' ∨ c = '\t' ∨ c = '\n' ∨ c = '\r' ∨ c.toNat = 11 ∨ c.toNat = 12 ∨
    c.toNat = 0xa0 ∨ c.toNat = 0x1680 ∨ (0x2000 ≤ c.toNat ∧ c.toNat ≤ 0x200a) ∨
    c.toNat = 0x2028 ∨ c.toNat = 0x2029 ∨ c.toNat = 0x202f ∨ c.toNat = 0x205f ∨
    c.toNat = 0x3000 ∨ c.toNat = 0xfeff

/-- `image_base64.replace(/\s+/g, '')`: remove every whitespace
character. -/
def cleanBase64 (b : String) : List Char :=
  b.toList.filter (fun c => ¬ isJsWs c)

/-! ## Option bag and result envelope (`Options`, `OperationResult`) -/

/-- The `operation_type` discriminator of the option bag. -/
inductive OperationType where
  | text_generation
  | image_generation
  | image_analysis
  | file_search
  | file_search_with_image
  | code_interpreter
  | embeddings
  | moderation
  | list_models
  | file_analysis
  | file_analysis_with_vector_search
deriving Repr, DecidableEq

/-- The `response_format` option. -/
inductive ResponseFormat where
  | text
  | json_object
  | json_schema
deriving Repr, DecidableEq

/-- The `file_base64_array` field is declared `string[]` but may arrive
from the host form layer as a JSON-encoded string. -/
inductive StrOrList where
  | str (s : String)
  | arr (l : List String)
deriving Repr, DecidableEq

/-- The option bag of the handler (the `Options` type of `api.ts`).
`none` models an absent (`undefined`) field.  The `temperature` field is
declared in the TypeScript type but never destructured or read by the
handler, so it is omitted here. -/
structure Options where
  api_key : Option String := none
  operation_type : Option OperationType := none
  model : Option String := none
  system_message_text : Option String := none
  system_message_image : Option String := none
  system_message_file : Option String := none
  system_message_file_image : Option String := none
  system_message_file_analysis : Option String := none
  system_message_file_analysis_vector : Option String := none
  user_message : Option String := none
  enable_web_search : Option Bool := none
  response_format : Option ResponseFormat := none
  json_schema : Option Json := none
  image_prompt : Option String := none
  image_url : Option String := none
  image_base64 : Option String := none
  analysis_prompt : Option String := none
  search_query : Option String := none
  vector_store_ids : Option (List String) := none
  code_input : Option String := none
  text_input : Option String := none
  file_analysis_prompt : Option String := none
  file_base64_array : Option StrOrList := none
  max_output_tokens : Option Nat := none
  image_size : Option String := none
  image_quality : Option String := none
  image_style : Option String := none
  store_response : Option Bool := none
  previous_response_id : Option String := none

/-- A thrown JavaScript error value: `message` and the runtime
constructor name (`Error` for every error thrown locally by the handler;
a stub client may use any name).  `getErrorMessage`/`getErrorType` read
these two fields. -/
structure JsError where
  message : String
  ctorName : String
deriving Repr, DecidableEq

/-- `new Error(msg)` as thrown by the handler itself. -/
def jsError (msg : String) : JsError := ⟨msg, "Error"⟩

/-- `getErrorMessage` of `api.ts` (restricted to `Error`-shaped values,
the only values this model throws). -/
def getErrorMessage (e : JsError) : String := e.message

/-- `getErrorType` of `api.ts`: the thrown value's constructor name. -/
def getErrorType (e : JsError) : String := e.ctorName

/-- JavaScript truthiness of an optional string field:
`undefined` and `''` are falsy. -/
def strTruthy : Option String → Bool
  | none => false
  | some s => s ≠ ""

/-- Truthiness of the `file_base64_array` field: `undefined` and the
empty string are falsy, an array (even empty) is truthy. -/
def fbTruthy : Option StrOrList → Bool
  | none => false
  | some (.str s) => s ≠ ""
  | some (.arr _) => true

/-- Destructured `operation_type` with its default. -/
def opTypeOf (o : Options) : OperationType :=
  o.operation_type.getD .text_generation

/-- Destructured `model` with its default `'gpt-4o-mini'`. -/
def modelOf (o : Options) : String :=
  o.model.getD "gpt-4o-mini"

/-- `model || 'gpt-4o-mini'` as used by the analysis variants (catches an
explicitly supplied empty string, which the destructuring default does
not). -/
def modelOrMini (o : Options) : String :=
  if modelOf o = "" then "gpt-4o-mini" else modelOf o

/-- Destructured `response_format` with its default `'text'`. -/
def rfOf (o : Options) : ResponseFormat :=
  o.response_format.getD .text

/-- Destructured `max_output_tokens` with its default `1000`. -/
def maxTokOf (o : Options) : Nat :=
  o.max_output_tokens.getD 1000

/-- Destructured `store_response` with its default `true`. -/
def storeOf (o : Options) : Bool :=
  o.store_response.getD true

/-- The `previous_response_id` actually attached to upstream parameters:
the handler guards every attachment with a truthiness test
(`if (previous_response_id)`), so an empty string is not attached. -/
def prevOf (o : Options) : Option String :=
  match o.previous_response_id with
  | some p => if p = "" then none else some p
  | none => none

/-- Message roles used by the handler. -/
inductive Role where
  | system
  | user
deriving Repr, DecidableEq

/-- One entry of a structured user-content array. -/
inductive ContentItem where
  | inputText (text : String)
  | inputImage (image_url : String) (detail : String)
  | inputFileUrl (file_url : String)
  | inputFileId (file_id : String)
deriving Repr, DecidableEq

/-- A message's content: either a bare string or a content-item array. -/
inductive MsgContent where
  | text (s : String)
  | items (l : List ContentItem)
deriving Repr, DecidableEq

/-- One input message of a Responses API call. -/
structure Message where
  role : Role
  content : MsgContent
deriving Repr, DecidableEq

/-- A tool activation attached to a Responses API call. -/
inductive Tool where
  | webSearchPreview
  | imageGeneration (size quality style : String)
  | fileSearch (vector_store_ids : List String)
  | codeInterpreter
deriving Repr, DecidableEq

/-- The `response_format` directive attached to a Responses API call. -/
inductive ResponseFormatParam where
  | jsonObject
  | jsonSchema (name : String) (schema : Json) (strict : Bool)

/-- The parameter object passed to `openai.responses.create`.  A field
the handler leaves unset is `none`. -/
structure ResponseParams where
  model : String
  input : List Message
  max_output_tokens : Option Nat
  store : Bool
  tools : Option (List Tool)
  response_format : Option ResponseFormatParam
  previous_response_id : Option String

/-- The fields of a Responses API response that the handler reads. -/
structure ApiResponse where
  output_text : Option String
  model : String
  usage : Json
  status : Option String
  output : Option (List Json)
  id : String

/-- `openai.embeddings.create` parameters. -/
structure EmbeddingParams where
  model : String
  input : String
deriving Repr, DecidableEq

/-- The fields of an embeddings response that the handler reads. -/
structure EmbeddingResponse where
  data : List Json
  model : String
  usage : Json

/-- `openai.moderations.create` parameters. -/
structure ModerationParams where
  model : String
  input : String
deriving Repr, DecidableEq

/-- One entry of `moderation.results`. -/
structure ModerationItem where
  flagged : Bool
  categories : Json
  category_scores : Json

/-- The fields of a moderations response that the handler reads. -/
structure ModerationResponse where
  results : List ModerationItem
  model : String

/-- The fields of `openai.models.list()` that the handler reads. -/
structure ModelsList where
  data : List Json

/-- `openai.files.create` parameters: the handler builds a `File` from
the decoded base64 buffer with a synthesized filename and MIME type and
uploads it with purpose `'assistants'`; this model records the filename,
MIME type, raw base64 text and purpose. -/
structure FileCreateParams where
  filename : String
  mimeType : String
  base64Data : String
  purpose : String
deriving Repr, DecidableEq

/-- The fields of an uploaded-file object that the handler reads. -/
structure UploadedFile where
  id : String
deriving Repr, DecidableEq

/-- The stub OpenAI client: one pure function per endpoint the handler
can invoke.  `Except.error` models a rejected SDK call. -/
structure Client where
  responsesCreate : ResponseParams → Except JsError ApiResponse
  embeddingsCreate : EmbeddingParams → Except JsError EmbeddingResponse
  moderationsCreate : ModerationParams → Except JsError ModerationResponse
  modelsList : Except JsError ModelsList
  filesCreate : FileCreateParams → Except JsError UploadedFile
  filesDel : String → Except JsError Unit

/-- One recorded client invocation. -/
inductive CallEvent where
  | responses (p : ResponseParams)
  | embeddings (p : EmbeddingParams)
  | moderations (p : ModerationParams)
  | models
  | fileCreate (p : FileCreateParams)
  | fileDelete (id : String)

/-- The variant-shaped `data` payload of a success envelope. -/
inductive SuccessData where
  | textGen (content model : String) (usage : Json) (finish_reason : Option String)
      (response_format : ResponseFormat)
  | imageGen (images : List Json) (model : String) (usage : Json)
  | imageAnalysis (content model : String) (usage : Json) (finish_reason : Option String)
      (response_format : ResponseFormat)
  | fileSearchData (content model : String) (usage : Json)
  | fileSearchWithImage (content model : String) (usage : Json) (finish_reason : Option String)
      (response_format : ResponseFormat)
  | codeInterpreterData (content : String) (files : List Json) (model : String) (usage : Json)
  | embeddingsData (embeddings : List Json) (model : String) (usage : Json)
  | moderationData (results : List ModerationItem) (model : String) (flagged : Bool)
      (categories category_scores : Json)
  | modelsData (models : List Json)
  | fileAnalysisData (content model : String) (usage : Json) (finish_reason : Option String)
      (response_format : ResponseFormat) (processed_files_count : Nat)
  | fileAnalysisVectorData (content model : String) (usage : Json) (finish_reason : Option String)
      (response_format : ResponseFormat) (processed_files_count : Nat)
      (vector_search_enabled : Bool)

/-- The success envelope `{success: true, data, response_id?}`. -/
structure SuccessResult where
  data : SuccessData
  response_id : Option String

/-- The error payload of a failure envelope. -/
structure ErrorInfo where
  message : String
  type : String
  operation_type : OperationType
  model : String

/-- `OperationResult = SuccessResult | ErrorResult`. -/
inductive OperationResult where
  | success (r : SuccessResult)
  | failure (e : ErrorInfo)

/-! ## The handler computation: state-passing with a call log -/

/-- A handler computation: threads the call log and may end in a thrown
error.  The log survives a throw (a recorded invocation stays recorded
when a later step fails). -/
def M (α : Type) : Type :=
  List CallEvent → Except JsError α × List CallEvent

/-- Return a value, leaving the log unchanged. -/
def M.pure {α : Type} (a : α) : M α := fun log => (.ok a, log)

/-- `throw` inside the handler's `try` block. -/
def M.throw {α : Type} (e : JsError) : M α := fun log => (.error e, log)

/-- Sequencing: a thrown error aborts the rest of the computation. -/
def M.bind {α β : Type} (m : M α) (f : α → M β) : M β := fun log =>
  match m log with
  | (.ok a, log2) => f a log2
  | (.error e, log2) => (.error e, log2)

/-- Lift an `Except` into the computation (a step that does not invoke
the client but may throw). -/
def M.bindE {α β : Type} (e : Except JsError α) (f : α → M β) : M β :=
  match e with
  | .ok a => f a
  | .error err => M.throw err

/-- Invoke a client endpoint: the invocation is recorded in the log
whether or not the call succeeds. -/
def M.call {α : Type} (ev : CallEvent) (res : Except JsError α) : M α :=
  fun log => (res, log ++ [ev])

/-- `await openai.responses.create(p)`. -/
def callResponses (c : Client) (p : ResponseParams) : M ApiResponse :=
  M.call (.responses p) (c.responsesCreate p)

/-- `await openai.embeddings.create(p)`. -/
def callEmbeddings (c : Client) (p : EmbeddingParams) : M EmbeddingResponse :=
  M.call (.embeddings p) (c.embeddingsCreate p)

/-- `await openai.moderations.create(p)`. -/
def callModerations (c : Client) (p : ModerationParams) : M ModerationResponse :=
  M.call (.moderations p) (c.moderationsCreate p)

/-- `await openai.models.list()`. -/
def callModels (c : Client) : M ModelsList :=
  M.call .models c.modelsList

/-- `await openai.files.create(p)`. -/
def callFilesCreate (c : Client) (p : FileCreateParams) : M UploadedFile :=
  M.call (.fileCreate p) (c.filesCreate p)

/-- `await openai.files.del(id)`. -/
def callFilesDel (c : Client) (id : String) : M Unit :=
  M.call (.fileDelete id) (c.filesDel id)

/-- A `try { m } catch { console.warn(...) }` whose result is discarded:
the invocation is still recorded, any error is swallowed. -/
def M.ignoreErr {α : Type} (m : M α) : M Unit := fun log =>
  match m log with
  | (_, log2) => (.ok (), log2)

/-! ## Shared request-shaping helpers -/

/-- `response.output_text || ''`. -/
def outText (resp : ApiResponse) : String :=
  resp.output_text.getD ""

/-- The optional system message prefixed to the input list when the
variant's system-message field is truthy. -/
def optSys (m : Option String) : List Message :=
  if strTruthy m then [⟨.system, .text (m.getD "")⟩] else []

/-- Resolution of the `response_format` option shared by the five
variants that honour it (`api.ts` lines 160-176, 328-344, 514-530,
742-758, 887-903): `json_object` attaches a `json_object` directive;
`json_schema` requires a truthy `json_schema` option (else throws) and
attaches a named strict schema directive; `text` attaches nothing. -/
def resolveResponseFormat (rf : ResponseFormat) (js : Option Json) (name : String) :
    Except JsError (Option ResponseFormatParam) :=
  match rf with
  | .text => .ok none
  | .json_object => .ok (some .jsonObject)
  | .json_schema =>
    match js with
    | none => .error (jsError "JSON schema is required when response format is json_schema")
    | some j => .ok (some (.jsonSchema name j true))

/-- Image-format detection of the `image_analysis` and
`file_search_with_image` variants (`api.ts` lines 283-294 and 463-474):
inspect the first 20 characters of the base64 text; `/9j/` means jpeg,
`iVBO` means png, `UklGR` means webp, `R0lGOD` means gif, anything else
defaults to png. -/
def detectImageFormat (b : String) : String :=
  let header := b.toList.take 20
  if listStartsWith header "/9j/".toList ∨ listStartsWith header "iVBO".toList then
    (if listStartsWith header "/9j/".toList then "jpeg" else "png")
  else if listStartsWith header "UklGR".toList then "webp"
  else if listStartsWith header "R0lGOD".toList then "gif"
  else "png"

/-- Conversion of a raw `image_base64` option to a data URL (`api.ts`
lines 277-306 and 457-486, identical in both variants): a string already
carrying a `data:image/` scheme passes through; otherwise the format is
detected from the (uncleaned) header, whitespace is stripped, and the
result is validated against the base64 alphabet, throwing on failure. -/
def imageBase64ToDataUrl (b : String) : Except JsError String :=
  if strStartsWith b "data:image/" then .ok b
  else
    let fmt := detectImageFormat b
    let clean := cleanBase64 b
    if base64RegexTest clean then
      .ok ("data:image/" ++ fmt ++ ";base64," ++ String.mk clean)
    else
      .error (jsError "Invalid base64 format detected. Please ensure the input is correctly encoded in base64 format.")

/-- MIME-type sniffing of the `file_analysis` variant (`api.ts` lines
699-717), translated branch for branch: note that the first branch tests
`/9j/` **or** `iVBO` and assigns `image/jpeg`, so the later
`iVBORw0KGgo` branch assigning `image/png` can never fire. -/
def sniffFileMime (b : String) : String :=
  let header := b.toList.take 20
  if listStartsWith header "/9j/".toList ∨ listStartsWith header "iVBO".toList then
    "image/jpeg"
  else if listStartsWith header "iVBORw0KGgo".toList then "image/png"
  else if listStartsWith header "UklGR".toList then "image/webp"
  else if listStartsWith header "R0lGOD".toList then "image/gif"
  else if listStartsWith header "JVBERi0".toList then "application/pdf"
  else if listStartsWith header "UEsDBBQA".toList then
    "application/vnd.openxmlformats-officedocument.wordprocessingml.document"
  else if listStartsWith header "PK".toList then "application/zip"
  else "application/octet-stream"

/-- The data URL built for one `file_analysis` entry (`api.ts` line
720). -/
def fileDataUrl (b : String) : String :=
  "data:" ++ sniffFileMime b ++ ";base64," ++ b

/-- Parsing of the `file_base64_array` field when it arrives as a string
(`api.ts` lines 651-668 and 786-803): un-escape, then `JSON.parse`; a
failed parse degrades to the one-element array holding the raw
(un-unescaped) string.  The parsed JSON value is whatever `JSON.parse`
returned. -/
def parseFileBase64Field (s : String) : Json :=
  match jsonParse (unescapeFileField s) with
  | some j => j
  | none => Json.arr [Json.str s]

/-- The parsed file array as the `string[]` the surrounding code
declares and consumes.  A parse that yields JSON which is not an array
of strings falls outside the field's declared type; this model keeps the
string entries (and every claim below is stated on inputs where the
parse result is exactly a string array or a parse failure). -/
def parsedFileArrayModel (fb : Option StrOrList) : List String :=
  match fb with
  | none => []
  | some (.arr l) => l
  | some (.str s) =>
    if s = "" then []
    else
      match jsonParse (unescapeFileField s) with
      | some (Json.arr items) =>
        items.filterMap fun j => match j with | Json.str t => some t | _ => none
      | some _ => []
      | none => [s]

/-! ## The eleven operation variants -/

/-- Request parameters of the `text_generation` variant. -/
def textGenerationParams (o : Options) (rfp : Option ResponseFormatParam) : ResponseParams :=
  ⟨modelOf o,
   optSys o.system_message_text ++ [⟨.user, .text (o.user_message.getD "")⟩],
   some (maxTokOf o), storeOf o,
   (if o.enable_web_search.getD false then some [Tool.webSearchPreview] else none),
   rfp, prevOf o⟩

/-- Success payload of the `text_generation` variant. -/
def textGenerationResult (rf : ResponseFormat) (resp : ApiResponse) : SuccessResult :=
  ⟨.textGen (outText resp) resp.model resp.usage resp.status rf, some resp.id⟩

/-- The `text_generation` branch of the dispatch switch. -/
def runTextGeneration (c : Client) (o : Options) : M SuccessResult :=
  if strTruthy o.user_message = false then
    M.throw (jsError "User message is required for text generation")
  else
    M.bindE (resolveResponseFormat (rfOf o) o.json_schema "response") fun rfp =>
    M.bind (callResponses c (textGenerationParams o rfp)) fun resp =>
    M.pure (textGenerationResult (rfOf o) resp)

/-- Request parameters of the `image_generation` variant. -/
def imageGenerationParams (o : Options) : ResponseParams :=
  ⟨(if strIncludes (modelOf o) "dall-e" then modelOf o else "dall-e-3"),
   [⟨.user, .text (o.image_prompt.getD "")⟩],
   none, storeOf o,
   some [Tool.imageGeneration (o.image_size.getD "1024x1024") (o.image_quality.getD "standard")
     (o.image_style.getD "vivid")],
   none, prevOf o⟩

/-- Success payload of the `image_generation` variant. -/
def imageGenerationResult (resp : ApiResponse) : SuccessResult :=
  ⟨.imageGen (resp.output.getD []) resp.model resp.usage, some resp.id⟩

/-- The `image_generation` branch. -/
def runImageGeneration (c : Client) (o : Options) : M SuccessResult :=
  if strTruthy o.image_prompt = false then
    M.throw (jsError "Image description is required for image generation")
  else
    M.bind (callResponses c (imageGenerationParams o)) fun resp =>
    M.pure (imageGenerationResult resp)

/-- The default analysis prompt of the `image_analysis` variant. -/
def defaultAnalysisPrompt : String :=
  "Please analyze this image and describe what you see, including any text, objects, colors, composition, and other notable features."

/-- The user-content array of the `image_analysis` variant: the prompt
(or its default), then the image, from `image_url` if truthy, else from
`image_base64` (whose conversion may throw). -/
def imageAnalysisContent (o : Options) : Except JsError (List ContentItem) :=
  let promptItem : ContentItem :=
    .inputText (if strTruthy o.analysis_prompt then o.analysis_prompt.getD "" else defaultAnalysisPrompt)
  if strTruthy o.image_url then
    .ok [promptItem, .inputImage (o.image_url.getD "") "high"]
  else if strTruthy o.image_base64 then
    match imageBase64ToDataUrl (o.image_base64.getD "") with
    | .ok url => .ok [promptItem, .inputImage url "high"]
    | .error e => .error e
  else .ok [promptItem]

/-- Request parameters of the `image_analysis` variant. -/
def imageAnalysisParams (o : Options) (content : List ContentItem)
    (rfp : Option ResponseFormatParam) : ResponseParams :=
  ⟨modelOrMini o,
   optSys o.system_message_image ++ [⟨.user, .items content⟩],
   some (maxTokOf o), storeOf o, none, rfp, prevOf o⟩

/-- Success payload of the `image_analysis` variant. -/
def imageAnalysisResult (rf : ResponseFormat) (resp : ApiResponse) : SuccessResult :=
  ⟨.imageAnalysis (outText resp) resp.model resp.usage resp.status rf, some resp.id⟩

/-- The `image_analysis` branch. -/
def runImageAnalysis (c : Client) (o : Options) : M SuccessResult :=
  if strTruthy o.image_url = false ∧ strTruthy o.image_base64 = false then
    M.throw (jsError "Image URL or image base64 is required for image analysis")
  else
    M.bindE (imageAnalysisContent o) fun content =>
    M.bindE (resolveResponseFormat (rfOf o) o.json_schema "analysis_response") fun rfp =>
    M.bind (callResponses c (imageAnalysisParams o content rfp)) fun resp =>
    M.pure (imageAnalysisResult (rfOf o) resp)

/-- Truthiness of the `vector_store_ids` check
`!vector_store_ids || vector_store_ids.length === 0`. -/
def vsMissing (v : Option (List String)) : Bool :=
  match v with
  | none => true
  | some l => l.isEmpty

/-- Request parameters of the `file_search` variant. -/
def fileSearchParams (o : Options) : ResponseParams :=
  ⟨modelOf o,
   optSys o.system_message_file ++ [⟨.user, .text (o.search_query.getD "")⟩],
   none, storeOf o,
   some [Tool.fileSearch (o.vector_store_ids.getD [])],
   none, prevOf o⟩

/-- Success payload of the `file_search` variant. -/
def fileSearchResult (resp : ApiResponse) : SuccessResult :=
  ⟨.fileSearchData (outText resp) resp.model resp.usage, some resp.id⟩

/-- The `file_search` branch. -/
def runFileSearch (c : Client) (o : Options) : M SuccessResult :=
  if strTruthy o.search_query = false then
    M.throw (jsError "Search query is required for file search")
  else if vsMissing o.vector_store_ids then
    M.throw (jsError "Vector store IDs are required for file search")
  else
    M.bind (callResponses c (fileSearchParams o)) fun resp =>
    M.pure (fileSearchResult resp)

/-- The user-content array of the `file_search_with_image` variant: the
query text, then the image (url or converted base64). -/
def fileSearchWithImageContent (o : Options) : Except JsError (List ContentItem) :=
  let queryItem : ContentItem := .inputText (o.search_query.getD "")
  if strTruthy o.image_url then
    .ok [queryItem, .inputImage (o.image_url.getD "") "high"]
  else if strTruthy o.image_base64 then
    match imageBase64ToDataUrl (o.image_base64.getD "") with
    | .ok url => .ok [queryItem, .inputImage url "high"]
    | .error e => .error e
  else .ok [queryItem]

/-- Request parameters of the `file_search_with_image` variant. -/
def fileSearchWithImageParams (o : Options) (content : List ContentItem)
    (rfp : Option ResponseFormatParam) : ResponseParams :=
  ⟨modelOrMini o,
   optSys o.system_message_file_image ++ [⟨.user, .items content⟩],
   some (maxTokOf o), storeOf o,
   some [Tool.fileSearch (o.vector_store_ids.getD [])],
   rfp, prevOf o⟩

/-- Success payload of the `file_search_with_image` variant. -/
def fileSearchWithImageResult (rf : ResponseFormat) (resp : ApiResponse) : SuccessResult :=
  ⟨.fileSearchWithImage (outText resp) resp.model resp.usage resp.status rf, some resp.id⟩

/-- The `file_search_with_image` branch. -/
def runFileSearchWithImage (c : Client) (o : Options) : M SuccessResult :=
  if strTruthy o.search_query = false then
    M.throw (jsError "Search query is required for file search with image")
  else if vsMissing o.vector_store_ids then
    M.throw (jsError "Vector store IDs are required for file search with image")
  else if strTruthy o.image_url = false ∧ strTruthy o.image_base64 = false then
    M.throw (jsError "Image URL or image base64 is required for file search with image")
  else
    M.bindE (fileSearchWithImageContent o) fun content =>
    M.bindE (resolveResponseFormat (rfOf o) o.json_schema "file_search_with_image_response") fun rfp =>
    M.bind (callResponses c (fileSearchWithImageParams o content rfp)) fun resp =>
    M.pure (fileSearchWithImageResult (rfOf o) resp)

/-- Request parameters of the `code_interpreter` variant. -/
def codeInterpreterParams (o : Options) : ResponseParams :=
  ⟨modelOf o,
   [⟨.user, .text (o.code_input.getD "")⟩],
   none, storeOf o,
   some [Tool.codeInterpreter],
   none, prevOf o⟩

/-- Success payload of the `code_interpreter` variant. -/
def codeInterpreterResult (resp : ApiResponse) : SuccessResult :=
  ⟨.codeInterpreterData (outText resp) (resp.output.getD []) resp.model resp.usage, some resp.id⟩

/-- The `code_interpreter` branch. -/
def runCodeInterpreter (c : Client) (o : Options) : M SuccessResult :=
  if strTruthy o.code_input = false then
    M.throw (jsError "Code input is required for code interpretation")
  else
    M.bind (callResponses c (codeInterpreterParams o)) fun resp =>
    M.pure (codeInterpreterResult resp)

/-- The `embeddings` branch. -/
def runEmbeddings (c : Client) (o : Options) : M SuccessResult :=
  if strTruthy o.text_input = false then
    M.throw (jsError "Text is required for embeddings")
  else
    M.bind (callEmbeddings c
      ⟨(if strIncludes (modelOf o) "embedding" then modelOf o else "text-embedding-3-small"),
       o.text_input.getD ""⟩) fun resp =>
    M.pure ⟨.embeddingsData resp.data resp.model resp.usage, none⟩

/-- The `moderation` branch. -/
def runModeration (c : Client) (o : Options) : M SuccessResult :=
  if strTruthy o.text_input = false then
    M.throw (jsError "Text is required for moderation")
  else
    M.bind (callModerations c ⟨"omni-moderation-latest", o.text_input.getD ""⟩) fun resp =>
    M.pure ⟨.moderationData resp.results resp.model
      ((resp.results.head?.map (·.flagged)).getD false)
      ((resp.results.head?.map (·.categories)).getD (Json.obj []))
      ((resp.results.head?.map (·.category_scores)).getD (Json.obj [])), none⟩

/-- The `list_models` branch. -/
def runListModels (c : Client) (_o : Options) : M SuccessResult :=
  M.bind (callModels c) fun resp =>
  M.pure ⟨.modelsData resp.data, none⟩

/-- The user-content array of the `file_analysis` variant: the prompt,
then one `input_file` data URL per non-empty parsed entry. -/
def fileAnalysisContent (prompt : String) (files : List String) : List ContentItem :=
  .inputText prompt ::
    files.filterMap (fun b => if b = "" then none else some (.inputFileUrl (fileDataUrl b)))

/-- Request parameters of the `file_analysis` variant. -/
def fileAnalysisParams (o : Options) (content : List ContentItem)
    (rfp : Option ResponseFormatParam) : ResponseParams :=
  ⟨modelOrMini o,
   optSys o.system_message_file_analysis ++ [⟨.user, .items content⟩],
   some (maxTokOf o), storeOf o, none, rfp, prevOf o⟩

/-- Success payload of the `file_analysis` variant. -/
def fileAnalysisResult (rf : ResponseFormat) (count : Nat) (resp : ApiResponse) : SuccessResult :=
  ⟨.fileAnalysisData (outText resp) resp.model resp.usage resp.status rf count, some resp.id⟩

/-- The `file_analysis` branch. -/
def runFileAnalysis (c : Client) (o : Options) : M SuccessResult :=
  if strTruthy o.file_analysis_prompt = false then
    M.throw (jsError "File analysis prompt is required for file analysis")
  else
    let parsed := parsedFileArrayModel o.file_base64_array
    if parsed.length = 0 then
      M.throw (jsError "At least one file is required for file analysis")
    else
      M.bindE (resolveResponseFormat (rfOf o) o.json_schema "file_analysis_response") fun rfp =>
      M.bind (callResponses c (fileAnalysisParams o
        (fileAnalysisContent (o.file_analysis_prompt.getD "") parsed) rfp)) fun resp =>
      M.pure (fileAnalysisResult (rfOf o) parsed.length resp)

/-- Filename extension synthesized from a data URL's MIME type
(`api.ts` lines 843-851). -/
def extForMime (mime : String) : String :=
  if mime = "application/pdf" then "pdf"
  else if mime = "text/plain" then "txt"
  else if mime = "application/vnd.openxmlformats-officedocument.wordprocessingml.document" then "docx"
  else if mime = "text/markdown" then "md"
  else if mime = "text/html" then "html"
  else if mime = "text/csv" then "csv"
  else if mime = "application/json" then "json"
  else "bin"

/-- The regex `^data:([^;]+);base64,(.*)$` (`api.ts` line 837): MIME type
up to the first `;`, then the literal `;base64,`, then the payload (which
the dot cannot match across line terminators). -/
def parseDataUrl (s : String) : Option (String × String) :=
  let l := s.toList
  if listStartsWith l "data:".toList then
    let rest := l.drop 5
    let mime := rest.takeWhile (fun c => c ≠ ';')
    if mime = [] then none
    else
      let after := rest.drop mime.length
      if listStartsWith after ";base64,".toList then
        let payload := after.drop 8
        if payload.any (fun c => c = '\n' ∨ c = '\r') then none
        else some (String.mk mime, String.mk payload)
      else none
  else none

/-- Per-entry processing of the `file_analysis_with_vector_search`
upload loop (`api.ts` lines 823-866): empty entries are skipped;
`data:image/` entries become inline image content; other `data:` URLs
are decoded and uploaded (recording the returned file id); entries that
match neither pattern are skipped.  Returns the content items and the
uploaded file ids, in encounter order. -/
def processVectorFiles (c : Client) : Nat → List String → M (List ContentItem × List String)
  | _, [] => M.pure ([], [])
  | i, f :: rest =>
    if f = "" then processVectorFiles c (i + 1) rest
    else if strStartsWith f "data:image/" then
      M.bind (processVectorFiles c (i + 1) rest) fun acc =>
      M.pure (.inputImage f "high" :: acc.1, acc.2)
    else if strStartsWith f "data:" then
      match parseDataUrl f with
      | none => processVectorFiles c (i + 1) rest
      | some (mime, b64) =>
        if b64 = "" then processVectorFiles c (i + 1) rest
        else
          M.bind (callFilesCreate c
            ⟨"file_" ++ toString (i + 1) ++ "." ++ extForMime mime, mime, b64, "assistants"⟩)
            fun up =>
          M.bind (processVectorFiles c (i + 1) rest) fun acc =>
          M.pure (.inputFileId up.id :: acc.1, up.id :: acc.2)
    else processVectorFiles c (i + 1) rest

/-- Best-effort cleanup of uploaded files after the main call (`api.ts`
lines 910-916): one delete per recorded id, failures swallowed. -/
def cleanupFiles (c : Client) : List String → M Unit
  | [] => M.pure ()
  | id :: rest =>
    M.bind (M.ignoreErr (callFilesDel c id)) fun _ =>
    cleanupFiles c rest

/-- The `file_search` tool attachment of the vector-search variant:
present only when `vector_store_ids` is a non-empty array. -/
def vsTools (v : Option (List String)) : Option (List Tool) :=
  match v with
  | some l => if l.isEmpty then none else some [Tool.fileSearch l]
  | none => none

/-- `!!(vector_store_ids && vector_store_ids.length > 0)`. -/
def vsEnabled (v : Option (List String)) : Bool :=
  match v with
  | some l => ¬ l.isEmpty
  | none => false

/-- Request parameters of the `file_analysis_with_vector_search`
variant. -/
def fileAnalysisVectorParams (o : Options) (content : List ContentItem)
    (rfp : Option ResponseFormatParam) : ResponseParams :=
  ⟨modelOrMini o,
   optSys o.system_message_file_analysis_vector ++ [⟨.user, .items content⟩],
   some (maxTokOf o), storeOf o,
   vsTools o.vector_store_ids,
   rfp, prevOf o⟩

/-- Success payload of the `file_analysis_with_vector_search` variant. -/
def fileAnalysisVectorResult (rf : ResponseFormat) (count : Nat) (vse : Bool)
    (resp : ApiResponse) : SuccessResult :=
  ⟨.fileAnalysisVectorData (outText resp) resp.model resp.usage resp.status rf count vse,
   some resp.id⟩

/-- The `file_analysis_with_vector_search` branch: prompt check, array
parse, per-entry upload loop, response-format resolution (after the
uploads, as in the source), main call, best-effort cleanup, result. -/
def runFileAnalysisVector (c : Client) (o : Options) : M SuccessResult :=
  if strTruthy o.file_analysis_prompt = false then
    M.throw (jsError "File analysis prompt is required for file analysis with vector search")
  else
    let parsed := parsedFileArrayModel o.file_base64_array
    M.bind (processVectorFiles c 0 parsed) fun acc =>
    let content := .inputText (o.file_analysis_prompt.getD "") :: acc.1
    M.bindE (resolveResponseFormat (rfOf o) o.json_schema "file_analysis_vector_response") fun rfp =>
    M.bind (callResponses c (fileAnalysisVectorParams o content rfp)) fun resp =>
    M.bind (cleanupFiles c acc.2) fun _ =>
    M.pure (fileAnalysisVectorResult (rfOf o) parsed.length (vsEnabled o.vector_store_ids) resp)

/-- The dispatch switch over `operation_type`. -/
def runTry (c : Client) (o : Options) : M SuccessResult :=
  match opTypeOf o with
  | .text_generation => runTextGeneration c o
  | .image_generation => runImageGeneration c o
  | .image_analysis => runImageAnalysis c o
  | .file_search => runFileSearch c o
  | .file_search_with_image => runFileSearchWithImage c o
  | .code_interpreter => runCodeInterpreter c o
  | .embeddings => runEmbeddings c o
  | .moderation => runModeration c o
  | .list_models => runListModels c o
  | .file_analysis => runFileAnalysis c o
  | .file_analysis_with_vector_search => runFileAnalysisVector c o

/-- The whole handler: the missing-credential check sits **before** the
`try` block, so its `throw` escapes as `Except.error`; everything inside
the switch is caught and converted to the failure envelope.  The second
component is the recorded client-invocation log. -/
def runHandler (c : Client) (o : Options) : Except JsError OperationResult × List CallEvent :=
  if strTruthy o.api_key then
    match runTry c o [] with
    | (.ok r, log) => (.ok (.success r), log)
    | (.error e, log) =>
      (.ok (.failure ⟨getErrorMessage e, getErrorType e, opTypeOf o, modelOf o⟩), log)
  else
    (.error (jsError "OpenAI API key is required"), [])

/-! ## Computation lemmas -/

theorem M.pure_apply {α : Type} (a : α) (log : List CallEvent) :
    M.pure a log = (.ok a, log) := rfl

theorem M.throw_apply {α : Type} (e : JsError) (log : List CallEvent) :
    (M.throw e : M α) log = (.error e, log) := rfl

theorem M.bind_ok {α β : Type} {m : M α} {f : α → M β} {log log2 : List CallEvent} {a : α}
    (h : m log = (.ok a, log2)) : M.bind m f log = f a log2 := by
  simp [M.bind, h]

theorem M.bind_error {α β : Type} {m : M α} {f : α → M β} {log log2 : List CallEvent}
    {e : JsError} (h : m log = (.error e, log2)) : M.bind m f log = (.error e, log2) := by
  simp [M.bind, h]

theorem M.bindE_ok {α β : Type} (a : α) (f : α → M β) :
    M.bindE (Except.ok a) f = f a := rfl

theorem M.bindE_error {α β : Type} (e : JsError) (f : α → M β) :
    M.bindE (Except.error e) f = M.throw e := rfl

theorem M.call_apply {α : Type} (ev : CallEvent) (res : Except JsError α)
    (log : List CallEvent) : M.call ev res log = (res, log ++ [ev]) := rfl

/-- A prefix test against a truncation of the list agrees with the test
against the full list as soon as the truncation is at least as long as
the pattern (the 20-character header reads in `api.ts`). -/
theorem listStartsWith_take (pat : List Char) :
    ∀ (l : List Char) (n : Nat), pat.length ≤ n →
      listStartsWith (l.take n) pat = listStartsWith l pat := by
  induction pat with
  | nil => intro l n _; cases l <;> cases n <;> rfl
  | cons p ps ih =>
    intro l n hn
    cases n with
    | zero => simp at hn
    | succ m =>
      cases l with
      | nil => rfl
      | cons c l' =>
        simp only [List.take_succ_cons, listStartsWith]
        rcases eq_or_ne c p with h | h
        · simp only [h, if_pos rfl]
          exact ih l' m (Nat.le_of_succ_le_succ hn)
        · simp [h]

theorem strStartsWith_of_take20 {s : String} {pat : String}
    (hlen : pat.toList.length ≤ 20) :
    listStartsWith (s.toList.take 20) pat.toList = strStartsWith s pat := by
  rw [listStartsWith_take _ _ _ hlen, strStartsWith]

/-! ## Client-update lemmas (the delete endpoint never influences a
result) -/

/-- Replace only the `filesDel` endpoint of a client. -/
def setDel (c : Client) (d : String → Except JsError Unit) : Client :=
  { c with filesDel := d }

theorem callFilesCreate_setDel (c : Client) (d : String → Except JsError Unit)
    (p : FileCreateParams) : callFilesCreate (setDel c d) p = callFilesCreate c p := rfl

theorem callResponses_setDel (c : Client) (d : String → Except JsError Unit)
    (p : ResponseParams) : callResponses (setDel c d) p = callResponses c p := rfl

/-- Cleanup attempts exactly one delete per recorded id, in order, and
always succeeds — for **any** delete endpoint: failures are swallowed and
the recorded events do not depend on the outcomes. -/
theorem cleanupFiles_spec (c : Client) :
    ∀ (ids : List String) (log : List CallEvent),
      cleanupFiles c ids log = (.ok (), log ++ ids.map CallEvent.fileDelete) := by
  intro ids
  induction ids with
  | nil => intro log; simp [cleanupFiles, M.pure]
  | cons id rest ih =>
    intro log
    have h1 : M.ignoreErr (callFilesDel c id) log = (.ok (), log ++ [CallEvent.fileDelete id]) := rfl
    calc cleanupFiles c (id :: rest) log
        = cleanupFiles c rest (log ++ [CallEvent.fileDelete id]) := by
          simp only [cleanupFiles]
          exact M.bind_ok h1
      _ = (.ok (), log ++ (id :: rest).map CallEvent.fileDelete) := by
          rw [ih]; simp

theorem processVectorFiles_setDel (c : Client) (d : String → Except JsError Unit) :
    ∀ (l : List String) (i : Nat),
      processVectorFiles (setDel c d) i l = processVectorFiles c i l := by
  intro l
  induction l with
  | nil => intro i; rfl
  | cons f rest ih =>
    intro i
    simp only [processVectorFiles, ih, callFilesCreate_setDel]

theorem cleanupFiles_setDel (c : Client) (d : String → Except JsError Unit)
    (ids : List String) : cleanupFiles (setDel c d) ids = cleanupFiles c ids := by
  funext log
  rw [cleanupFiles_spec, cleanupFiles_spec]

theorem runTry_setDel (c : Client) (d : String → Except JsError Unit) (o : Options) :
    runTry (setDel c d) o = runTry c o := by
  unfold runTry
  cases opTypeOf o
  case text_generation => rfl
  case image_generation => rfl
  case image_analysis => rfl
  case file_search => rfl
  case file_search_with_image => rfl
  case code_interpreter => rfl
  case embeddings => rfl
  case moderation => rfl
  case list_models => rfl
  case file_analysis => rfl
  case file_analysis_with_vector_search =>
    simp only [runFileAnalysisVector, processVectorFiles_setDel, cleanupFiles_setDel,
      callResponses_setDel]

theorem runHandler_setDel (c : Client) (d : String → Except JsError Unit) (o : Options) :
    runHandler (setDel c d) o = runHandler c o := by
  unfold runHandler
  rw [runTry_setDel]

/-! ## Test fixtures (stub clients and sample responses) -/

/-- A stub client whose every endpoint rejects: used by claims whose
behaviour must not depend on (or never reach) the network. -/
def dummyClient : Client :=
  ⟨fun _ => .error ⟨"network unreachable", "APIError"⟩,
   fun _ => .error ⟨"network unreachable", "APIError"⟩,
   fun _ => .error ⟨"network unreachable", "APIError"⟩,
   .error ⟨"network unreachable", "APIError"⟩,
   fun _ => .error ⟨"network unreachable", "APIError"⟩,
   fun _ => .error ⟨"network unreachable", "APIError"⟩⟩

/-- A sample usage object. -/
def sampleUsage : Json := Json.obj [("total_tokens", Json.num "42")]

/-- A sample Responses API response. -/
def sampleResp : ApiResponse :=
  ⟨some "hello", "gpt-4o-mini-2024-07-18", sampleUsage, some "completed", some [], "resp_abc123"⟩

/-- A stub client whose every endpoint succeeds with fixed data; uploads
return an id derived from the uploaded filename. -/
def okClient : Client :=
  ⟨fun _ => .ok sampleResp,
   fun _ => .ok ⟨[], "text-embedding-3-small", sampleUsage⟩,
   fun _ => .ok ⟨[], "omni-moderation-latest"⟩,
   .ok ⟨[]⟩,
   fun p => .ok ⟨"file-" ++ p.filename⟩,
   fun _ => .ok ()⟩

/-- Assembly of a failure envelope from a locally thrown `Error`. -/
theorem runHandler_of_runTry_error {c : Client} {o : Options} {m : String}
    {log : List CallEvent} (hk : strTruthy o.api_key = true)
    (h : runTry c o [] = (.error (jsError m), log)) :
    runHandler c o = (.ok (.failure ⟨m, "Error", opTypeOf o, modelOf o⟩), log) := by
  unfold runHandler
  simp only [hk, eq_self_iff_true, if_true, h]
  rfl

/-! ## C1 -/

/-- C1 counterexample: with `api_key` absent (and likewise empty), the
handler does **not** return a failure envelope — the missing-credential
check sits before the `try` block, so the handler throws (rejects) with
`Error('OpenAI API key is required')`; no `ConfigurationError` value
exists anywhere in the dispatch. -/
theorem C1_missing_key_throws :
    runHandler dummyClient ({} : Options) =
      (.error (jsError "OpenAI API key is required"), []) ∧
    runHandler dummyClient { api_key := some "" } =
      (.error (jsError "OpenAI API key is required"), []) ∧
    (runHandler dummyClient ({} : Options)).1.isOk = false :=
  ⟨rfl, rfl, rfl⟩

/-- C1 (amended): for every option bag whose `api_key` is present and
non-empty the handler never throws — every failure inside the dispatch is
converted to the failure envelope; when `api_key` is absent or empty the
handler instead throws `Error('OpenAI API key is required')` before
dispatching. -/
theorem C1_never_throws_with_key :
    (∀ (c : Client) (o : Options), strTruthy o.api_key = true →
      ∃ res : OperationResult, (runHandler c o).1 = .ok res) ∧
    (∀ (c : Client) (o : Options), strTruthy o.api_key = false →
      runHandler c o = (.error (jsError "OpenAI API key is required"), [])) := by
  constructor
  · intro c o hk
    unfold runHandler
    simp only [hk, eq_self_iff_true, if_true]
    rcases hres : runTry c o [] with ⟨r, log⟩
    cases r with
    | ok a => exact ⟨.success a, rfl⟩
    | error e =>
      exact ⟨.failure ⟨getErrorMessage e, getErrorType e, opTypeOf o, modelOf o⟩, rfl⟩
  · intro c o hk
    unfold runHandler
    rw [hk]
    rfl

/-- Witness for C1: both halves at concrete inputs. -/
theorem C1_never_throws_with_key_witness :
    (∃ res : OperationResult,
      (runHandler dummyClient { api_key := some "sk-1", user_message := some "hi" }).1 = .ok res) ∧
    runHandler dummyClient ({} : Options) =
      (.error (jsError "OpenAI API key is required"), []) :=
  ⟨C1_never_throws_with_key.1 dummyClient { api_key := some "sk-1", user_message := some "hi" }
      (by decide),
   C1_never_throws_with_key.2 dummyClient ({} : Options) (by decide)⟩

/-! ## C2 -/

/-- C2: for every operation variant, calling with that variant's
documented required field missing returns a failure envelope whose
message is the variant's exact required-field message (naming the field
in its human-readable form, as the source's messages do) and whose
`operation_type` equals the input's `operation_type`; no client endpoint
is invoked (the log stays empty). -/
theorem C2_required_field_messages :
    (∀ (c : Client) (o : Options), strTruthy o.api_key = true →
      o.operation_type = some .text_generation → strTruthy o.user_message = false →
      runHandler c o = (.ok (.failure ⟨"User message is required for text generation",
        "Error", .text_generation, modelOf o⟩), [])) ∧
    (∀ (c : Client) (o : Options), strTruthy o.api_key = true →
      o.operation_type = some .image_generation → strTruthy o.image_prompt = false →
      runHandler c o = (.ok (.failure ⟨"Image description is required for image generation",
        "Error", .image_generation, modelOf o⟩), [])) ∧
    (∀ (c : Client) (o : Options), strTruthy o.api_key = true →
      o.operation_type = some .image_analysis →
      strTruthy o.image_url = false → strTruthy o.image_base64 = false →
      runHandler c o = (.ok (.failure ⟨"Image URL or image base64 is required for image analysis",
        "Error", .image_analysis, modelOf o⟩), [])) ∧
    (∀ (c : Client) (o : Options), strTruthy o.api_key = true →
      o.operation_type = some .file_search → strTruthy o.search_query = false →
      runHandler c o = (.ok (.failure ⟨"Search query is required for file search",
        "Error", .file_search, modelOf o⟩), [])) ∧
    (∀ (c : Client) (o : Options), strTruthy o.api_key = true →
      o.operation_type = some .file_search_with_image → strTruthy o.search_query = false →
      runHandler c o = (.ok (.failure ⟨"Search query is required for file search with image",
        "Error", .file_search_with_image, modelOf o⟩), [])) ∧
    (∀ (c : Client) (o : Options), strTruthy o.api_key = true →
      o.operation_type = some .code_interpreter → strTruthy o.code_input = false →
      runHandler c o = (.ok (.failure ⟨"Code input is required for code interpretation",
        "Error", .code_interpreter, modelOf o⟩), [])) ∧
    (∀ (c : Client) (o : Options), strTruthy o.api_key = true →
      o.operation_type = some .embeddings → strTruthy o.text_input = false →
      runHandler c o = (.ok (.failure ⟨"Text is required for embeddings",
        "Error", .embeddings, modelOf o⟩), [])) ∧
    (∀ (c : Client) (o : Options), strTruthy o.api_key = true →
      o.operation_type = some .moderation → strTruthy o.text_input = false →
      runHandler c o = (.ok (.failure ⟨"Text is required for moderation",
        "Error", .moderation, modelOf o⟩), [])) ∧
    (∀ (c : Client) (o : Options), strTruthy o.api_key = true →
      o.operation_type = some .file_analysis → strTruthy o.file_analysis_prompt = false →
      runHandler c o = (.ok (.failure ⟨"File analysis prompt is required for file analysis",
        "Error", .file_analysis, modelOf o⟩), [])) ∧
    (∀ (c : Client) (o : Options), strTruthy o.api_key = true →
      o.operation_type = some .file_analysis_with_vector_search →
      strTruthy o.file_analysis_prompt = false →
      runHandler c o = (.ok (.failure
        ⟨"File analysis prompt is required for file analysis with vector search",
        "Error", .file_analysis_with_vector_search, modelOf o⟩), [])) := by
  refine ⟨?_, ?_, ?_, ?_, ?_, ?_, ?_, ?_, ?_, ?_⟩
  · intro c o hk hop hm
    have hv : opTypeOf o = .text_generation := by simp [opTypeOf, hop]
    have ht : runTry c o [] =
        (.error (jsError "User message is required for text generation"), []) := by
      simp [runTry, hv, runTextGeneration, hm, M.throw]
    rw [runHandler_of_runTry_error hk ht, hv]
  · intro c o hk hop hm
    have hv : opTypeOf o = .image_generation := by simp [opTypeOf, hop]
    have ht : runTry c o [] =
        (.error (jsError "Image description is required for image generation"), []) := by
      simp [runTry, hv, runImageGeneration, hm, M.throw]
    rw [runHandler_of_runTry_error hk ht, hv]
  · intro c o hk hop hm1 hm2
    have hv : opTypeOf o = .image_analysis := by simp [opTypeOf, hop]
    have ht : runTry c o [] =
        (.error (jsError "Image URL or image base64 is required for image analysis"), []) := by
      simp [runTry, hv, runImageAnalysis, hm1, hm2, M.throw]
    rw [runHandler_of_runTry_error hk ht, hv]
  · intro c o hk hop hm
    have hv : opTypeOf o = .file_search := by simp [opTypeOf, hop]
    have ht : runTry c o [] =
        (.error (jsError "Search query is required for file search"), []) := by
      simp [runTry, hv, runFileSearch, hm, M.throw]
    rw [runHandler_of_runTry_error hk ht, hv]
  · intro c o hk hop hm
    have hv : opTypeOf o = .file_search_with_image := by simp [opTypeOf, hop]
    have ht : runTry c o [] =
        (.error (jsError "Search query is required for file search with image"), []) := by
      simp [runTry, hv, runFileSearchWithImage, hm, M.throw]
    rw [runHandler_of_runTry_error hk ht, hv]
  · intro c o hk hop hm
    have hv : opTypeOf o = .code_interpreter := by simp [opTypeOf, hop]
    have ht : runTry c o [] =
        (.error (jsError "Code input is required for code interpretation"), []) := by
      simp [runTry, hv, runCodeInterpreter, hm, M.throw]
    rw [runHandler_of_runTry_error hk ht, hv]
  · intro c o hk hop hm
    have hv : opTypeOf o = .embeddings := by simp [opTypeOf, hop]
    have ht : runTry c o [] = (.error (jsError "Text is required for embeddings"), []) := by
      simp [runTry, hv, runEmbeddings, hm, M.throw]
    rw [runHandler_of_runTry_error hk ht, hv]
  · intro c o hk hop hm
    have hv : opTypeOf o = .moderation := by simp [opTypeOf, hop]
    have ht : runTry c o [] = (.error (jsError "Text is required for moderation"), []) := by
      simp [runTry, hv, runModeration, hm, M.throw]
    rw [runHandler_of_runTry_error hk ht, hv]
  · intro c o hk hop hm
    have hv : opTypeOf o = .file_analysis := by simp [opTypeOf, hop]
    have ht : runTry c o [] =
        (.error (jsError "File analysis prompt is required for file analysis"), []) := by
      simp [runTry, hv, runFileAnalysis, hm, M.throw]
    rw [runHandler_of_runTry_error hk ht, hv]
  · intro c o hk hop hm
    have hv : opTypeOf o = .file_analysis_with_vector_search := by simp [opTypeOf, hop]
    have ht : runTry c o [] =
        (.error (jsError "File analysis prompt is required for file analysis with vector search"),
          []) := by
      simp [runTry, hv, runFileAnalysisVector, hm, M.throw]
    rw [runHandler_of_runTry_error hk ht, hv]

/-- Witness for C2: each variant applied at a concrete option bag with
only the credential and the discriminator set. -/
theorem C2_required_field_messages_witness :
    runHandler dummyClient { api_key := some "k", operation_type := some .text_generation } =
      (.ok (.failure ⟨"User message is required for text generation", "Error",
        .text_generation, "gpt-4o-mini"⟩), []) ∧
    runHandler dummyClient { api_key := some "k", operation_type := some .image_generation } =
      (.ok (.failure ⟨"Image description is required for image generation", "Error",
        .image_generation, "gpt-4o-mini"⟩), []) ∧
    runHandler dummyClient { api_key := some "k", operation_type := some .image_analysis } =
      (.ok (.failure ⟨"Image URL or image base64 is required for image analysis", "Error",
        .image_analysis, "gpt-4o-mini"⟩), []) ∧
    runHandler dummyClient { api_key := some "k", operation_type := some .file_search } =
      (.ok (.failure ⟨"Search query is required for file search", "Error",
        .file_search, "gpt-4o-mini"⟩), []) ∧
    runHandler dummyClient { api_key := some "k", operation_type := some .file_search_with_image } =
      (.ok (.failure ⟨"Search query is required for file search with image", "Error",
        .file_search_with_image, "gpt-4o-mini"⟩), []) ∧
    runHandler dummyClient { api_key := some "k", operation_type := some .code_interpreter } =
      (.ok (.failure ⟨"Code input is required for code interpretation", "Error",
        .code_interpreter, "gpt-4o-mini"⟩), []) ∧
    runHandler dummyClient { api_key := some "k", operation_type := some .embeddings } =
      (.ok (.failure ⟨"Text is required for embeddings", "Error",
        .embeddings, "gpt-4o-mini"⟩), []) ∧
    runHandler dummyClient { api_key := some "k", operation_type := some .moderation } =
      (.ok (.failure ⟨"Text is required for moderation", "Error",
        .moderation, "gpt-4o-mini"⟩), []) ∧
    runHandler dummyClient { api_key := some "k", operation_type := some .file_analysis } =
      (.ok (.failure ⟨"File analysis prompt is required for file analysis", "Error",
        .file_analysis, "gpt-4o-mini"⟩), []) ∧
    runHandler dummyClient
        { api_key := some "k", operation_type := some .file_analysis_with_vector_search } =
      (.ok (.failure ⟨"File analysis prompt is required for file analysis with vector search",
        "Error", .file_analysis_with_vector_search, "gpt-4o-mini"⟩), []) :=
  ⟨C2_required_field_messages.1 dummyClient _ (by decide) rfl (by decide),
   C2_required_field_messages.2.1 dummyClient _ (by decide) rfl (by decide),
   C2_required_field_messages.2.2.1 dummyClient _ (by decide) rfl (by decide) (by decide),
   C2_required_field_messages.2.2.2.1 dummyClient _ (by decide) rfl (by decide),
   C2_required_field_messages.2.2.2.2.1 dummyClient _ (by decide) rfl (by decide),
   C2_required_field_messages.2.2.2.2.2.1 dummyClient _ (by decide) rfl (by decide),
   C2_required_field_messages.2.2.2.2.2.2.1 dummyClient _ (by decide) rfl (by decide),
   C2_required_field_messages.2.2.2.2.2.2.2.1 dummyClient _ (by decide) rfl (by decide),
   C2_required_field_messages.2.2.2.2.2.2.2.2.1 dummyClient _ (by decide) rfl (by decide),
   C2_required_field_messages.2.2.2.2.2.2.2.2.2 dummyClient _ (by decide) rfl (by decide)⟩

/-! ## C8 -/

/-- C8: for the `embeddings` and `moderation` variants, a missing
`text_input` yields a failure envelope with an **empty call log** — the
stub client records zero invocations of any endpoint, in particular of
the embeddings/moderations endpoints. -/
theorem C8_no_network_without_text_input :
    (∀ (c : Client) (o : Options), strTruthy o.api_key = true →
      o.operation_type = some .embeddings → strTruthy o.text_input = false →
      runHandler c o = (.ok (.failure ⟨"Text is required for embeddings",
        "Error", .embeddings, modelOf o⟩), []) ∧ (runHandler c o).2 = []) ∧
    (∀ (c : Client) (o : Options), strTruthy o.api_key = true →
      o.operation_type = some .moderation → strTruthy o.text_input = false →
      runHandler c o = (.ok (.failure ⟨"Text is required for moderation",
        "Error", .moderation, modelOf o⟩), []) ∧ (runHandler c o).2 = []) := by
  constructor
  · intro c o hk hop hm
    have hv : opTypeOf o = .embeddings := by simp [opTypeOf, hop]
    have ht : runTry c o [] = (.error (jsError "Text is required for embeddings"), []) := by
      simp [runTry, hv, runEmbeddings, hm, M.throw]
    have he := runHandler_of_runTry_error hk ht
    rw [hv] at he
    exact ⟨he, by rw [he]⟩
  · intro c o hk hop hm
    have hv : opTypeOf o = .moderation := by simp [opTypeOf, hop]
    have ht : runTry c o [] = (.error (jsError "Text is required for moderation"), []) := by
      simp [runTry, hv, runModeration, hm, M.throw]
    have he := runHandler_of_runTry_error hk ht
    rw [hv] at he
    exact ⟨he, by rw [he]⟩

/-- Option bag for the C8 moderation witness. -/
def modOpts : Options :=
  { api_key := some "k", operation_type := some .moderation, text_input := some "" }

/-- Option bag for the C8 embeddings witness. -/
def embOpts : Options :=
  { api_key := some "k", operation_type := some .embeddings }

/-- Witness for C8: both variants at concrete option bags. -/
theorem C8_no_network_without_text_input_witness :
    (runHandler dummyClient embOpts =
      (.ok (.failure ⟨"Text is required for embeddings", "Error",
        .embeddings, "gpt-4o-mini"⟩), []) ∧
     (runHandler dummyClient embOpts).2 = []) ∧
    (runHandler dummyClient modOpts =
      (.ok (.failure ⟨"Text is required for moderation", "Error",
        .moderation, "gpt-4o-mini"⟩), []) ∧
     (runHandler dummyClient modOpts).2 = []) :=
  ⟨C8_no_network_without_text_input.1 dummyClient embOpts (by decide) rfl (by decide),
   C8_no_network_without_text_input.2 dummyClient modOpts (by decide) rfl (by decide)⟩

/-! ## C3 -/

/-- C3 (code bug): in the `file_analysis` sniffing table, an entry with
the PNG magic prefix `iVBORw0KGgo` is assigned MIME type `image/jpeg`,
not `image/png` — the first branch of the source tests
`header.startsWith('/9j/') || header.startsWith('iVBO')` and assigns
`image/jpeg`, so the dedicated `iVBORw0KGgo → image/png` branch is
unreachable.  The JPEG and PDF rows of the claim do hold. -/
theorem C3_png_prefix_sniffed_as_jpeg :
    sniffFileMime "iVBORw0KGgoAAAANSUhE" = "image/jpeg" ∧
    (sniffFileMime "iVBORw0KGgoAAAANSUhE" = "image/png") = False ∧
    sniffFileMime "/9j/4AAQSkZJRgABAQEA" = "image/jpeg" ∧
    sniffFileMime "JVBERi0xLjcKJeLjz9MK" = "application/pdf" ∧
    fileDataUrl "iVBORw0KGgoAAAANSUhE" = "data:image/jpeg;base64,iVBORw0KGgoAAAANSUhE" := by
  refine ⟨?_, ?_, ?_, ?_, ?_⟩ <;> decide

/-! ## C4 -/

/-- Two prefix patterns with different first characters cannot both
match. -/
theorem startsWith_distinct_heads {l : List Char} {a b : Char} {p q : List Char}
    (hab : ¬ a = b) (h : listStartsWith l (a :: p) = true) :
    listStartsWith l (b :: q) = false := by
  cases l with
  | nil => simp [listStartsWith] at h
  | cons c t =>
    simp only [listStartsWith] at h ⊢
    by_cases hc : c = a
    · subst hc
      rw [if_neg hab]
    · rw [if_neg hc] at h
      exact absurd h (by simp)

/-- Option bag for the malformed-base64 image-analysis request. -/
def bangOpts : Options :=
  { api_key := some "k", operation_type := some .image_analysis, image_base64 := some "!!!" }

/-- C4: `image_analysis` format detection — `/9j/` means jpeg, `iVBO`
means png (so the full PNG magic `iVBORw0KGgo` also means png), `UklGR`
means webp, `R0lGOD` means gif, anything else defaults to png; and a
whitespace-stripped base64 input containing a character outside the
base64 alphabet (the input `"!!!"`) produces a failure envelope whose
message reports invalid base64. -/
theorem C4_image_analysis_format_detection :
    (∀ s : String, strStartsWith s "/9j/" = true → detectImageFormat s = "jpeg") ∧
    (∀ s : String, strStartsWith s "iVBO" = true → detectImageFormat s = "png") ∧
    (∀ s : String, strStartsWith s "UklGR" = true → detectImageFormat s = "webp") ∧
    (∀ s : String, strStartsWith s "R0lGOD" = true → detectImageFormat s = "gif") ∧
    (∀ s : String, strStartsWith s "/9j/" = false → strStartsWith s "iVBO" = false →
      strStartsWith s "UklGR" = false → strStartsWith s "R0lGOD" = false →
      detectImageFormat s = "png") ∧
    runHandler dummyClient bangOpts =
      (.ok (.failure
        ⟨"Invalid base64 format detected. Please ensure the input is correctly encoded in base64 format.",
         "Error", .image_analysis, "gpt-4o-mini"⟩), []) := by
  have t1 : ∀ l : List Char, listStartsWith (List.take 20 l) ['/', '9', 'j', '/'] =
      listStartsWith l ['/', '9', 'j', '/'] := fun l => listStartsWith_take _ l 20 (by decide)
  have t2 : ∀ l : List Char, listStartsWith (List.take 20 l) ['i', 'V', 'B', 'O'] =
      listStartsWith l ['i', 'V', 'B', 'O'] := fun l => listStartsWith_take _ l 20 (by decide)
  have t3 : ∀ l : List Char, listStartsWith (List.take 20 l) ['U', 'k', 'l', 'G', 'R'] =
      listStartsWith l ['U', 'k', 'l', 'G', 'R'] := fun l => listStartsWith_take _ l 20 (by decide)
  have t4 : ∀ l : List Char, listStartsWith (List.take 20 l) ['R', '0', 'l', 'G', 'O', 'D'] =
      listStartsWith l ['R', '0', 'l', 'G', 'O', 'D'] :=
    fun l => listStartsWith_take _ l 20 (by decide)
  refine ⟨?_, ?_, ?_, ?_, ?_, ?_⟩
  · intro s h
    simp [strStartsWith] at h
    simp [detectImageFormat, t1, t2, t3, t4, h]
  · intro s h
    simp [strStartsWith] at h
    have hx : listStartsWith s.data ['/', '9', 'j', '/'] = false :=
      startsWith_distinct_heads (by decide) h
    simp [detectImageFormat, t1, t2, t3, t4, h, hx]
  · intro s h
    simp [strStartsWith] at h
    have hx1 : listStartsWith s.data ['/', '9', 'j', '/'] = false :=
      startsWith_distinct_heads (by decide) h
    have hx2 : listStartsWith s.data ['i', 'V', 'B', 'O'] = false :=
      startsWith_distinct_heads (by decide) h
    simp [detectImageFormat, t1, t2, t3, t4, h, hx1, hx2]
  · intro s h
    simp [strStartsWith] at h
    have hx1 : listStartsWith s.data ['/', '9', 'j', '/'] = false :=
      startsWith_distinct_heads (by decide) h
    have hx2 : listStartsWith s.data ['i', 'V', 'B', 'O'] = false :=
      startsWith_distinct_heads (by decide) h
    have hx3 : listStartsWith s.data ['U', 'k', 'l', 'G', 'R'] = false :=
      startsWith_distinct_heads (by decide) h
    simp [detectImageFormat, t1, t2, t3, t4, h, hx1, hx2, hx3]
  · intro s h1 h2 h3 h4
    simp [strStartsWith] at h1 h2 h3 h4
    simp [detectImageFormat, t1, t2, t3, t4, h1, h2, h3, h4]
  · rfl

/-- Witness for C4: the universally quantified detection rows applied at
concrete inputs. -/
theorem C4_image_analysis_format_detection_witness :
    detectImageFormat "/9j/4AAQ" = "jpeg" ∧
    detectImageFormat "iVBORw0KGgoAAAANSUhE" = "png" ∧
    detectImageFormat "UklGRhoA" = "webp" ∧
    detectImageFormat "R0lGODdh" = "gif" ∧
    detectImageFormat "zm9vYmFy" = "png" :=
  ⟨C4_image_analysis_format_detection.1 "/9j/4AAQ" (by decide),
   C4_image_analysis_format_detection.2.1 "iVBORw0KGgoAAAANSUhE" (by decide),
   C4_image_analysis_format_detection.2.2.1 "UklGRhoA" (by decide),
   C4_image_analysis_format_detection.2.2.2.1 "R0lGODdh" (by decide),
   C4_image_analysis_format_detection.2.2.2.2.1 "zm9vYmFy" (by decide) (by decide) (by decide)
     (by decide)⟩

/-! ## C5 -/

/-- C5: a `file_base64_array` field arriving as a string is first
un-escaped (`\"` to `"`, `\/` to `/`, `\\` to `\`) and then JSON-parsed;
the literal text `[\"a\",\"b\"]` yields the two-element array
`["a","b"]`, and any string whose parse fails (e.g. `not json`) yields
the one-element array holding the raw string — parsing alone never
produces a failure envelope. -/
theorem C5_string_array_parse_and_degrade :
    unescapeFileField "[\\\"a\\\",\\\"b\\\"]" = "[\"a\",\"b\"]" ∧
    parseFileBase64Field "[\\\"a\\\",\\\"b\\\"]" = Json.arr [Json.str "a", Json.str "b"] ∧
    parseFileBase64Field "not json" = Json.arr [Json.str "not json"] ∧
    (∀ s : String, jsonParse (unescapeFileField s) = none →
      parseFileBase64Field s = Json.arr [Json.str s]) ∧
    (∀ s : String, s ≠ "" → jsonParse (unescapeFileField s) = none →
      parsedFileArrayModel (some (.str s)) = [s]) ∧
    parsedFileArrayModel (some (.str "[\\\"a\\\",\\\"b\\\"]")) = ["a", "b"] ∧
    parsedFileArrayModel (some (.str "not json")) = ["not json"] := by
  refine ⟨rfl, rfl, rfl, ?_, ?_, rfl, rfl⟩
  · intro s h
    simp [parseFileBase64Field, h]
  · intro s hne h
    simp [parsedFileArrayModel, hne, h]

/-- Witness for C5: the universally quantified degradation rows applied
at the concrete malformed input. -/
theorem C5_string_array_parse_and_degrade_witness :
    parseFileBase64Field "not json" = Json.arr [Json.str "not json"] ∧
    parsedFileArrayModel (some (.str "not json")) = ["not json"] :=
  ⟨C5_string_array_parse_and_degrade.2.2.2.1 "not json" rfl,
   C5_string_array_parse_and_degrade.2.2.2.2.1 "not json" (by decide) rfl⟩

/-! ## C6 -/

/-- C6: for every conversation-state variant, a supplied (non-empty)
`previous_response_id` is attached unchanged to the upstream request
parameters, and the id returned by the upstream call is returned
unchanged as the success envelope's `response_id`; additionally, an
end-to-end run of `text_generation` shows the parameters passed to the
client and the returned envelope verbatim. -/
theorem C6_conversation_state_forwarding :
    (∀ (o : Options) (rfp : Option ResponseFormatParam) (p : String),
      o.previous_response_id = some p → p ≠ "" →
      (textGenerationParams o rfp).previous_response_id = some p) ∧
    (∀ (o : Options) (p : String), o.previous_response_id = some p → p ≠ "" →
      (imageGenerationParams o).previous_response_id = some p) ∧
    (∀ (o : Options) (content : List ContentItem) (rfp : Option ResponseFormatParam)
      (p : String), o.previous_response_id = some p → p ≠ "" →
      (imageAnalysisParams o content rfp).previous_response_id = some p) ∧
    (∀ (o : Options) (p : String), o.previous_response_id = some p → p ≠ "" →
      (fileSearchParams o).previous_response_id = some p) ∧
    (∀ (o : Options) (content : List ContentItem) (rfp : Option ResponseFormatParam)
      (p : String), o.previous_response_id = some p → p ≠ "" →
      (fileSearchWithImageParams o content rfp).previous_response_id = some p) ∧
    (∀ (o : Options) (p : String), o.previous_response_id = some p → p ≠ "" →
      (codeInterpreterParams o).previous_response_id = some p) ∧
    (∀ (o : Options) (content : List ContentItem) (rfp : Option ResponseFormatParam)
      (p : String), o.previous_response_id = some p → p ≠ "" →
      (fileAnalysisParams o content rfp).previous_response_id = some p) ∧
    (∀ (o : Options) (content : List ContentItem) (rfp : Option ResponseFormatParam)
      (p : String), o.previous_response_id = some p → p ≠ "" →
      (fileAnalysisVectorParams o content rfp).previous_response_id = some p) ∧
    (∀ (rf : ResponseFormat) (resp : ApiResponse),
      (textGenerationResult rf resp).response_id = some resp.id) ∧
    (∀ resp : ApiResponse, (imageGenerationResult resp).response_id = some resp.id) ∧
    (∀ (rf : ResponseFormat) (resp : ApiResponse),
      (imageAnalysisResult rf resp).response_id = some resp.id) ∧
    (∀ resp : ApiResponse, (fileSearchResult resp).response_id = some resp.id) ∧
    (∀ (rf : ResponseFormat) (resp : ApiResponse),
      (fileSearchWithImageResult rf resp).response_id = some resp.id) ∧
    (∀ resp : ApiResponse, (codeInterpreterResult resp).response_id = some resp.id) ∧
    (∀ (rf : ResponseFormat) (count : Nat) (resp : ApiResponse),
      (fileAnalysisResult rf count resp).response_id = some resp.id) ∧
    (∀ (rf : ResponseFormat) (count : Nat) (vse : Bool) (resp : ApiResponse),
      (fileAnalysisVectorResult rf count vse resp).response_id = some resp.id) ∧
    (∀ (c : Client) (o : Options) (resp : ApiResponse),
      strTruthy o.api_key = true → o.operation_type = some .text_generation →
      strTruthy o.user_message = true → o.response_format = none →
      c.responsesCreate = (fun _ => .ok resp) →
      runHandler c o = (.ok (.success (textGenerationResult .text resp)),
        [.responses (textGenerationParams o none)])) := by
  refine ⟨?_, ?_, ?_, ?_, ?_, ?_, ?_, ?_,
    fun _ _ => rfl, fun _ => rfl, fun _ _ => rfl, fun _ => rfl, fun _ _ => rfl, fun _ => rfl,
    fun _ _ _ => rfl, fun _ _ _ _ => rfl, ?_⟩
  · intro o rfp p hp hne
    simp [textGenerationParams, prevOf, hp, hne]
  · intro o p hp hne
    simp [imageGenerationParams, prevOf, hp, hne]
  · intro o content rfp p hp hne
    simp [imageAnalysisParams, prevOf, hp, hne]
  · intro o p hp hne
    simp [fileSearchParams, prevOf, hp, hne]
  · intro o content rfp p hp hne
    simp [fileSearchWithImageParams, prevOf, hp, hne]
  · intro o p hp hne
    simp [codeInterpreterParams, prevOf, hp, hne]
  · intro o content rfp p hp hne
    simp [fileAnalysisParams, prevOf, hp, hne]
  · intro o content rfp p hp hne
    simp [fileAnalysisVectorParams, prevOf, hp, hne]
  · intro c o resp hk hop hum hrfn hres
    have hv : opTypeOf o = .text_generation := by simp [opTypeOf, hop]
    have hrf : rfOf o = .text := by simp [rfOf, hrfn]
    have ht : runTry c o [] = (.ok (textGenerationResult .text resp),
        [.responses (textGenerationParams o none)]) := by
      simp [runTry, hv, runTextGeneration, hum, hrf, resolveResponseFormat, M.bindE,
        callResponses, M.call, hres, M.bind, M.pure]
    unfold runHandler
    simp only [hk, eq_self_iff_true, if_true, ht]

/-- Option bag for the C6 witness. -/
def tgOpts : Options :=
  { api_key := some "k", operation_type := some .text_generation,
    user_message := some "hi", previous_response_id := some "resp_prev" }

/-- Witness for C6: forwarding at concrete inputs, including a full run
of `text_generation` against the always-succeeding stub client. -/
theorem C6_conversation_state_forwarding_witness :
    (textGenerationParams tgOpts none).previous_response_id = some "resp_prev" ∧
    (imageGenerationParams tgOpts).previous_response_id = some "resp_prev" ∧
    (fileAnalysisVectorParams tgOpts [] none).previous_response_id = some "resp_prev" ∧
    (textGenerationResult .text sampleResp).response_id = some "resp_abc123" ∧
    (fileAnalysisVectorResult .text 2 true sampleResp).response_id = some "resp_abc123" ∧
    runHandler okClient tgOpts = (.ok (.success (textGenerationResult .text sampleResp)),
      [.responses (textGenerationParams tgOpts none)]) :=
  ⟨C6_conversation_state_forwarding.1 tgOpts none "resp_prev" rfl (by decide),
   C6_conversation_state_forwarding.2.1 tgOpts "resp_prev" rfl (by decide),
   C6_conversation_state_forwarding.2.2.2.2.2.2.2.1 tgOpts [] none "resp_prev" rfl (by decide),
   C6_conversation_state_forwarding.2.2.2.2.2.2.2.2.1 .text sampleResp,
   C6_conversation_state_forwarding.2.2.2.2.2.2.2.2.2.2.2.2.2.2.2.1 .text 2 true sampleResp,
   C6_conversation_state_forwarding.2.2.2.2.2.2.2.2.2.2.2.2.2.2.2.2 okClient tgOpts sampleResp
     (by decide) rfl (by decide) rfl rfl⟩

/-! ## C7 -/

/-- When every upload succeeds, the vector-variant upload loop cannot
throw. -/
theorem processVectorFiles_ok (c : Client) (h : ∀ p, ∃ u, c.filesCreate p = .ok u) :
    ∀ (l : List String) (i : Nat) (log : List CallEvent),
      ∃ acc log2, processVectorFiles c i l log = (.ok acc, log2) := by
  intro l
  induction l with
  | nil => intro i log; exact ⟨([], []), log, rfl⟩
  | cons f rest ih =>
    intro i log
    by_cases h1 : f = ""
    · simpa [processVectorFiles, h1] using ih (i + 1) log
    · by_cases h2 : strStartsWith f "data:image/" = true
      · obtain ⟨acc, log2, hacc⟩ := ih (i + 1) log
        refine ⟨(.inputImage f "high" :: acc.1, acc.2), log2, ?_⟩
        simp [processVectorFiles, h1, h2]
        rw [M.bind_ok hacc]
        rfl
      · by_cases h3 : strStartsWith f "data:" = true
        · rcases hd : parseDataUrl f with _ | ⟨mime, b64⟩
          · obtain ⟨acc, log2, hacc⟩ := ih (i + 1) log
            exact ⟨acc, log2, by simp [processVectorFiles, h1, h2, h3, hd, hacc]⟩
          · by_cases h4 : b64 = ""
            · obtain ⟨acc, log2, hacc⟩ := ih (i + 1) log
              exact ⟨acc, log2, by simp [processVectorFiles, h1, h2, h3, hd, h4, hacc]⟩
            · obtain ⟨u, hu⟩ := h ⟨"file_" ++ toString (i + 1) ++ "." ++ extForMime mime,
                mime, b64, "assistants"⟩
              obtain ⟨acc, log2, hacc⟩ := ih (i + 1)
                (log ++ [.fileCreate ⟨"file_" ++ toString (i + 1) ++ "." ++ extForMime mime,
                  mime, b64, "assistants"⟩])
              refine ⟨(.inputFileId u.id :: acc.1, u.id :: acc.2), log2, ?_⟩
              have hcall : callFilesCreate c ⟨"file_" ++ toString (i + 1) ++ "." ++
                  extForMime mime, mime, b64, "assistants"⟩ log =
                  (.ok u, log ++ [.fileCreate ⟨"file_" ++ toString (i + 1) ++ "." ++
                    extForMime mime, mime, b64, "assistants"⟩]) := by
                simp [callFilesCreate, M.call, hu]
              simp [processVectorFiles, h1, h2, h3, hd, h4]
              rw [M.bind_ok hcall, M.bind_ok hacc]
              rfl
        · simpa [processVectorFiles, h1, h2, h3] using ih (i + 1) log

/-- C7: for every variant that honours `response_format`
(`text_generation`, `image_analysis`, `file_search_with_image`,
`file_analysis`, `file_analysis_with_vector_search`): an otherwise valid
request with `response_format` `json_schema` and `json_schema` absent
returns a failure envelope with message "JSON schema is required when
response format is json_schema", while a non-null schema resolves to a
named strict `json_schema` response-format directive and does not fail
locally (shown end to end for `text_generation`: the directive reaches
the client's parameters and the call succeeds). -/
theorem C7_json_schema_requirement :
    (∀ n : String, resolveResponseFormat .json_schema none n =
      .error (jsError "JSON schema is required when response format is json_schema")) ∧
    (∀ (n : String) (j : Json), resolveResponseFormat .json_schema (some j) n =
      .ok (some (.jsonSchema n j true))) ∧
    (∀ (c : Client) (o : Options), strTruthy o.api_key = true →
      o.operation_type = some .text_generation → strTruthy o.user_message = true →
      o.response_format = some .json_schema → o.json_schema = none →
      runHandler c o = (.ok (.failure ⟨"JSON schema is required when response format is json_schema",
        "Error", .text_generation, modelOf o⟩), [])) ∧
    (∀ (c : Client) (o : Options), strTruthy o.api_key = true →
      o.operation_type = some .image_analysis → strTruthy o.image_url = true →
      o.response_format = some .json_schema → o.json_schema = none →
      runHandler c o = (.ok (.failure ⟨"JSON schema is required when response format is json_schema",
        "Error", .image_analysis, modelOf o⟩), [])) ∧
    (∀ (c : Client) (o : Options), strTruthy o.api_key = true →
      o.operation_type = some .file_search_with_image → strTruthy o.search_query = true →
      vsMissing o.vector_store_ids = false → strTruthy o.image_url = true →
      o.response_format = some .json_schema → o.json_schema = none →
      runHandler c o = (.ok (.failure ⟨"JSON schema is required when response format is json_schema",
        "Error", .file_search_with_image, modelOf o⟩), [])) ∧
    (∀ (c : Client) (o : Options) (l : List String), strTruthy o.api_key = true →
      o.operation_type = some .file_analysis → strTruthy o.file_analysis_prompt = true →
      o.file_base64_array = some (.arr l) → l ≠ [] →
      o.response_format = some .json_schema → o.json_schema = none →
      runHandler c o = (.ok (.failure ⟨"JSON schema is required when response format is json_schema",
        "Error", .file_analysis, modelOf o⟩), [])) ∧
    (∀ (c : Client) (o : Options), strTruthy o.api_key = true →
      o.operation_type = some .file_analysis_with_vector_search →
      strTruthy o.file_analysis_prompt = true →
      (∀ p, ∃ u, c.filesCreate p = .ok u) →
      o.response_format = some .json_schema → o.json_schema = none →
      (runHandler c o).1 = .ok (.failure ⟨"JSON schema is required when response format is json_schema",
        "Error", .file_analysis_with_vector_search, modelOf o⟩)) ∧
    (∀ (c : Client) (o : Options) (resp : ApiResponse) (j : Json),
      strTruthy o.api_key = true → o.operation_type = some .text_generation →
      strTruthy o.user_message = true → o.response_format = some .json_schema →
      o.json_schema = some j → c.responsesCreate = (fun _ => .ok resp) →
      runHandler c o = (.ok (.success (textGenerationResult .json_schema resp)),
        [.responses (textGenerationParams o (some (.jsonSchema "response" j true)))])) := by
  refine ⟨fun _ => rfl, fun _ _ => rfl, ?_, ?_, ?_, ?_, ?_, ?_⟩
  · intro c o hk hop hum hrfs hjs
    have hv : opTypeOf o = .text_generation := by simp [opTypeOf, hop]
    have hrf : rfOf o = .json_schema := by simp [rfOf, hrfs]
    have ht : runTry c o [] =
        (.error (jsError "JSON schema is required when response format is json_schema"), []) := by
      simp [runTry, hv, runTextGeneration, hum, hrf, hjs, resolveResponseFormat,
        M.bindE, M.throw]
    rw [runHandler_of_runTry_error hk ht, hv]
  · intro c o hk hop himg hrfs hjs
    have hv : opTypeOf o = .image_analysis := by simp [opTypeOf, hop]
    have hrf : rfOf o = .json_schema := by simp [rfOf, hrfs]
    have ht : runTry c o [] =
        (.error (jsError "JSON schema is required when response format is json_schema"), []) := by
      simp [runTry, hv, runImageAnalysis, himg, imageAnalysisContent, hrf, hjs,
        resolveResponseFormat, M.bindE, M.throw]
    rw [runHandler_of_runTry_error hk ht, hv]
  · intro c o hk hop hq hvs himg hrfs hjs
    have hv : opTypeOf o = .file_search_with_image := by simp [opTypeOf, hop]
    have hrf : rfOf o = .json_schema := by simp [rfOf, hrfs]
    have ht : runTry c o [] =
        (.error (jsError "JSON schema is required when response format is json_schema"), []) := by
      simp [runTry, hv, runFileSearchWithImage, hq, hvs, himg, fileSearchWithImageContent,
        hrf, hjs, resolveResponseFormat, M.bindE, M.throw]
    rw [runHandler_of_runTry_error hk ht, hv]
  · intro c o l hk hop hfp hfb hl hrfs hjs
    have hv : opTypeOf o = .file_analysis := by simp [opTypeOf, hop]
    have hrf : rfOf o = .json_schema := by simp [rfOf, hrfs]
    have ht : runTry c o [] =
        (.error (jsError "JSON schema is required when response format is json_schema"), []) := by
      simp [runTry, hv, runFileAnalysis, hfp, hfb, parsedFileArrayModel, hl, hrf, hjs,
        resolveResponseFormat, M.bindE, M.throw]
    rw [runHandler_of_runTry_error hk ht, hv]
  · intro c o hk hop hfp hup hrfs hjs
    have hv : opTypeOf o = .file_analysis_with_vector_search := by simp [opTypeOf, hop]
    have hrf : rfOf o = .json_schema := by simp [rfOf, hrfs]
    obtain ⟨acc, log2, hacc⟩ :=
      processVectorFiles_ok c hup (parsedFileArrayModel o.file_base64_array) 0 []
    have ht : runTry c o [] =
        (.error (jsError "JSON schema is required when response format is json_schema"), log2) := by
      simp only [runTry, hv, runFileAnalysisVector, hfp]
      simp only [Bool.true_eq_false, if_false, ite_false]
      rw [M.bind_ok hacc]
      simp [hrf, hjs, resolveResponseFormat, M.bindE, M.throw]
    unfold runHandler
    simp only [hk, eq_self_iff_true, if_true, ht]
    simp [getErrorMessage, getErrorType, jsError, hv]
  · intro c o resp j hk hop hum hrfs hjs hres
    have hv : opTypeOf o = .text_generation := by simp [opTypeOf, hop]
    have hrf : rfOf o = .json_schema := by simp [rfOf, hrfs]
    have ht : runTry c o [] = (.ok (textGenerationResult .json_schema resp),
        [.responses (textGenerationParams o (some (.jsonSchema "response" j true)))]) := by
      simp [runTry, hv, runTextGeneration, hum, hrf, hjs, resolveResponseFormat, M.bindE,
        callResponses, M.call, hres, M.bind, M.pure]
    unfold runHandler
    simp only [hk, eq_self_iff_true, if_true, ht]

/-- Option bags for the C7 witness. -/
def jsOpts : Options :=
  { api_key := some "k", operation_type := some .text_generation,
    user_message := some "hi", response_format := some .json_schema }

/-- `jsOpts` with a schema supplied. -/
def jsOkOpts : Options :=
  { jsOpts with json_schema := some (Json.obj []) }

/-- `image_analysis` with `json_schema` response format and no schema. -/
def iaJsOpts : Options :=
  { api_key := some "k", operation_type := some .image_analysis,
    image_url := some "https://example.com/a.png", response_format := some .json_schema }

/-- `file_search_with_image` with `json_schema` and no schema. -/
def fswiJsOpts : Options :=
  { api_key := some "k", operation_type := some .file_search_with_image,
    search_query := some "q", vector_store_ids := some ["vs_1"],
    image_url := some "https://example.com/a.png", response_format := some .json_schema }

/-- `file_analysis` with one file, `json_schema` and no schema. -/
def faJsOpts : Options :=
  { api_key := some "k", operation_type := some .file_analysis,
    file_analysis_prompt := some "p", file_base64_array := some (.arr ["QUFBQQ=="]),
    response_format := some .json_schema }

/-- `file_analysis_with_vector_search` with `json_schema` and no
schema. -/
def favJsOpts : Options :=
  { api_key := some "k", operation_type := some .file_analysis_with_vector_search,
    file_analysis_prompt := some "p", response_format := some .json_schema }

/-- Witness for C7: each variant applied at a concrete option bag. -/
theorem C7_json_schema_requirement_witness :
    runHandler dummyClient jsOpts =
      (.ok (.failure ⟨"JSON schema is required when response format is json_schema",
        "Error", .text_generation, "gpt-4o-mini"⟩), []) ∧
    runHandler dummyClient iaJsOpts =
      (.ok (.failure ⟨"JSON schema is required when response format is json_schema",
        "Error", .image_analysis, "gpt-4o-mini"⟩), []) ∧
    runHandler dummyClient fswiJsOpts =
      (.ok (.failure ⟨"JSON schema is required when response format is json_schema",
        "Error", .file_search_with_image, "gpt-4o-mini"⟩), []) ∧
    runHandler dummyClient faJsOpts =
      (.ok (.failure ⟨"JSON schema is required when response format is json_schema",
        "Error", .file_analysis, "gpt-4o-mini"⟩), []) ∧
    (runHandler okClient favJsOpts).1 =
      .ok (.failure ⟨"JSON schema is required when response format is json_schema",
        "Error", .file_analysis_with_vector_search, "gpt-4o-mini"⟩) ∧
    runHandler okClient jsOkOpts =
      (.ok (.success (textGenerationResult .json_schema sampleResp)),
        [.responses (textGenerationParams jsOkOpts
          (some (.jsonSchema "response" (Json.obj []) true)))]) :=
  ⟨C7_json_schema_requirement.2.2.1 dummyClient jsOpts (by decide) rfl (by decide) rfl rfl,
   C7_json_schema_requirement.2.2.2.1 dummyClient iaJsOpts (by decide) rfl (by decide) rfl rfl,
   C7_json_schema_requirement.2.2.2.2.1 dummyClient fswiJsOpts (by decide) rfl (by decide)
     (by decide) (by decide) rfl rfl,
   C7_json_schema_requirement.2.2.2.2.2.1 dummyClient faJsOpts ["QUFBQQ=="] (by decide) rfl
     (by decide) rfl (by decide) rfl rfl,
   C7_json_schema_requirement.2.2.2.2.2.2.1 okClient favJsOpts (by decide) rfl (by decide)
     (fun p => ⟨⟨"file-" ++ p.filename⟩, rfl⟩) rfl rfl,
   C7_json_schema_requirement.2.2.2.2.2.2.2 okClient jsOkOpts sampleResp (Json.obj [])
     (by decide) rfl (by decide) rfl rfl rfl⟩

/-! ## C9 -/

/-- C9: every file id returned by an upload is recorded and, after the
main call completes, exactly one delete is attempted per recorded id (in
order), for any delete endpoint — a failing delete is swallowed and the
returned `OperationResult` is identical to the one produced when every
delete succeeds (the whole handler output is invariant under changing the
delete endpoint); the end-to-end conjunct shows the full log of a
successful vector-search run: uploads, one main call, then the
deletes. -/
theorem C9_upload_cleanup_best_effort :
    (∀ (c : Client) (ids : List String) (log : List CallEvent),
      cleanupFiles c ids log = (.ok (), log ++ ids.map CallEvent.fileDelete)) ∧
    (∀ (c : Client) (d1 d2 : String → Except JsError Unit) (o : Options),
      runHandler (setDel c d1) o = runHandler (setDel c d2) o) ∧
    (∀ (c : Client) (o : Options) (resp : ApiResponse)
      (acc : List ContentItem × List String) (log2 : List CallEvent),
      strTruthy o.api_key = true →
      o.operation_type = some .file_analysis_with_vector_search →
      strTruthy o.file_analysis_prompt = true → o.response_format = none →
      c.responsesCreate = (fun _ => .ok resp) →
      processVectorFiles c 0 (parsedFileArrayModel o.file_base64_array) [] = (.ok acc, log2) →
      runHandler c o = (.ok (.success (fileAnalysisVectorResult .text
          (parsedFileArrayModel o.file_base64_array).length (vsEnabled o.vector_store_ids) resp)),
        log2 ++ [.responses (fileAnalysisVectorParams o
          (.inputText (o.file_analysis_prompt.getD "") :: acc.1) none)] ++
          acc.2.map CallEvent.fileDelete)) := by
  refine ⟨fun c ids log => cleanupFiles_spec c ids log, ?_, ?_⟩
  · intro c d1 d2 o
    rw [runHandler_setDel, runHandler_setDel]
  · intro c o resp acc log2 hk hop hfp hrfn hres hacc
    have hv : opTypeOf o = .file_analysis_with_vector_search := by simp [opTypeOf, hop]
    have hrf : rfOf o = .text := by simp [rfOf, hrfn]
    have ht : runTry c o [] = (.ok (fileAnalysisVectorResult .text
        (parsedFileArrayModel o.file_base64_array).length (vsEnabled o.vector_store_ids) resp),
        log2 ++ [.responses (fileAnalysisVectorParams o
          (.inputText (o.file_analysis_prompt.getD "") :: acc.1) none)] ++
          acc.2.map CallEvent.fileDelete) := by
      simp only [runTry, hv, runFileAnalysisVector, hfp]
      simp only [Bool.true_eq_false, if_false, ite_false]
      rw [M.bind_ok hacc]
      simp [hrf, resolveResponseFormat, M.bindE, callResponses, M.call, hres, M.bind,
        cleanupFiles_spec, M.pure]
    unfold runHandler
    simp only [hk, eq_self_iff_true, if_true, ht]

/-- Option bag for the C9/C10 witnesses: one raw base64 entry (skipped)
and one PDF data URL (uploaded). -/
def vecOpts : Options :=
  { api_key := some "k", operation_type := some .file_analysis_with_vector_search,
    file_analysis_prompt := some "p",
    file_base64_array := some (.arr ["cmF3ZGF0YQ==", "data:application/pdf;base64,QUFBQQ=="]) }

/-- Witness for C9: the end-to-end conjunct at a concrete run — one
upload, one main call, one delete, and the same envelope as when every
delete succeeds. -/
theorem C9_upload_cleanup_best_effort_witness :
    runHandler okClient vecOpts = (.ok (.success (fileAnalysisVectorResult .text 2 false
        sampleResp)),
      [.fileCreate ⟨"file_2.pdf", "application/pdf", "QUFBQQ==", "assistants"⟩] ++
        [.responses (fileAnalysisVectorParams vecOpts
          [.inputText "p", .inputFileId "file-file_2.pdf"] none)] ++
        [CallEvent.fileDelete "file-file_2.pdf"]) ∧
    cleanupFiles dummyClient ["f1", "f2"] [] =
      (.ok (), [CallEvent.fileDelete "f1", CallEvent.fileDelete "f2"]) :=
  ⟨C9_upload_cleanup_best_effort.2.2 okClient vecOpts sampleResp
      ([.inputFileId "file-file_2.pdf"], ["file-file_2.pdf"])
      [.fileCreate ⟨"file_2.pdf", "application/pdf", "QUFBQQ==", "assistants"⟩]
      (by decide) rfl (by decide) rfl rfl rfl,
   C9_upload_cleanup_best_effort.1 dummyClient ["f1", "f2"] []⟩

/-! ## C10 -/

/-- If a list starts with `p ++ q` it starts with `p`. -/
theorem listStartsWith_of_append {l p q : List Char}
    (h : listStartsWith l (p ++ q) = true) : listStartsWith l p = true := by
  induction p generalizing l with
  | nil => cases l <;> rfl
  | cons a ps ih =>
    cases l with
    | nil => simp [listStartsWith] at h
    | cons c t =>
      simp only [List.cons_append, listStartsWith] at h ⊢
      by_cases hc : c = a
      · rw [if_pos hc] at h ⊢
        exact ih h
      · rw [if_neg hc] at h
        exact absurd h (by simp)

/-- C10: in the vector-search variant, an entry that does not begin with
`data:` contributes nothing — no content item, no upload, no log event;
the per-entry loop simply moves on (first conjunct).  Yet the success
envelope's `processed_files_count` is the length of the **whole** parsed
array, counting the skipped entries (second conjunct); the closed third
conjunct shows a concrete run with one raw entry and one data URL:
exactly one upload happens, but `processed_files_count` is 2. -/
theorem C10_skipped_entries_still_counted :
    (∀ (c : Client) (i : Nat) (e : String) (rest : List String),
      strStartsWith e "data:" = false →
      processVectorFiles c i (e :: rest) = processVectorFiles c (i + 1) rest) ∧
    (∀ (c : Client) (o : Options) (resp : ApiResponse)
      (acc : List ContentItem × List String) (log2 : List CallEvent),
      strTruthy o.api_key = true →
      o.operation_type = some .file_analysis_with_vector_search →
      strTruthy o.file_analysis_prompt = true → o.response_format = none →
      c.responsesCreate = (fun _ => .ok resp) →
      processVectorFiles c 0 (parsedFileArrayModel o.file_base64_array) [] = (.ok acc, log2) →
      (runHandler c o).1 = .ok (.success (fileAnalysisVectorResult .text
        (parsedFileArrayModel o.file_base64_array).length (vsEnabled o.vector_store_ids) resp))) ∧
    ((runHandler okClient vecOpts).1 = .ok (.success (fileAnalysisVectorResult .text 2 false
        sampleResp)) ∧
     (runHandler okClient vecOpts).2.countP (fun ev => match ev with
        | .fileCreate _ => true | _ => false) = 1 ∧
     (parsedFileArrayModel vecOpts.file_base64_array).length = 2) := by
  refine ⟨?_, ?_, rfl, rfl, rfl⟩
  · intro c i e rest h
    by_cases h1 : e = ""
    · simp [processVectorFiles, h1]
    · have hdi : strStartsWith e "data:image/" = false := by
        rcases hx : strStartsWith e "data:image/" with _ | _
        · rfl
        · exfalso
          have heq : ("data:image/").toList = ("data:").toList ++ ("image/").toList := by decide
          have h5 : listStartsWith e.toList (("data:").toList ++ ("image/").toList) = true := by
            have hx' : listStartsWith e.toList ("data:image/").toList = true := hx
            rw [heq] at hx'
            exact hx'
          have h6 := listStartsWith_of_append h5
          have h7 : strStartsWith e "data:" = true := h6
          rw [h7] at h
          exact absurd h (by simp)
      simp [processVectorFiles, h1, hdi, h]
  · intro c o resp acc log2 hk hop hfp hrfn hres hacc
    have hv : opTypeOf o = .file_analysis_with_vector_search := by simp [opTypeOf, hop]
    have hrf : rfOf o = .text := by simp [rfOf, hrfn]
    have ht : runTry c o [] = (.ok (fileAnalysisVectorResult .text
        (parsedFileArrayModel o.file_base64_array).length (vsEnabled o.vector_store_ids) resp),
        log2 ++ [.responses (fileAnalysisVectorParams o
          (.inputText (o.file_analysis_prompt.getD "") :: acc.1) none)] ++
          acc.2.map CallEvent.fileDelete) := by
      simp only [runTry, hv, runFileAnalysisVector, hfp]
      simp only [Bool.true_eq_false, if_false, ite_false]
      rw [M.bind_ok hacc]
      simp [hrf, resolveResponseFormat, M.bindE, callResponses, M.call, hres, M.bind,
        cleanupFiles_spec, M.pure]
    unfold runHandler
    simp only [hk, eq_self_iff_true, if_true, ht]

/-- Witness for C10: the skip rule and the count rule at concrete
inputs. -/
theorem C10_skipped_entries_still_counted_witness :
    processVectorFiles dummyClient 0 ["cmF3ZGF0YQ==", "data:application/pdf;base64,QUFBQQ=="] =
      processVectorFiles dummyClient 1 ["data:application/pdf;base64,QUFBQQ=="] ∧
    (runHandler okClient vecOpts).1 = .ok (.success (fileAnalysisVectorResult .text 2 false
      sampleResp)) :=
  ⟨C10_skipped_entries_still_counted.1 dummyClient 0 "cmF3ZGF0YQ=="
      ["data:application/pdf;base64,QUFBQQ=="] (by decide),
   C10_skipped_entries_still_counted.2.1 okClient vecOpts sampleResp
      ([.inputFileId "file-file_2.pdf"], ["file-file_2.pdf"])
      [.fileCreate ⟨"file_2.pdf", "application/pdf", "QUFBQQ==", "assistants"⟩]
      (by decide) rfl (by decide) rfl rfl rfl⟩
